import Mathlib

/-!
Verification of the browser-action orchestration core
(`src/core/tools/browserActionTool.ts`) against its specification.

The TypeScript source is shallowly embedded: the in-page analysis script,
the selector synthesizer, the HTML-to-markdown converter and the top-level
action dispatcher become executable Lean functions.  JavaScript regular
expressions used by the source are modelled by a small backtracking matcher
(`mmatch`) specialised to the atom shapes that actually occur in the source
patterns; JavaScript string truthiness is modelled by comparison with the
empty string, and `undefined` by `Option`.
-/

/-- Membership in JavaScript's regex class `\s` (ECMAScript WhiteSpace plus
LineTerminator); the same set backs `String.prototype.trim`. -/
def isJsWs (c : Char) : Bool :=
  let n := c.toNat
  n == 0x09 || n == 0x0A || n == 0x0B || n == 0x0C || n == 0x0D || n == 0x20 ||
  n == 0xA0 || n == 0x1680 || (decide (0x2000 ≤ n) && decide (n ≤ 0x200A)) ||
  n == 0x2028 || n == 0x2029 || n == 0x202F || n == 0x205F || n == 0x3000 ||
  n == 0xFEFF

/-- Membership in JavaScript's regex class `\w` (used for the word boundary
`\b` that follows a tag name in the source's tag-block-removal patterns). -/
def isWordChar (c : Char) : Bool :=
  let n := c.toNat
  (decide (65 ≤ n) && decide (n ≤ 90)) || (decide (97 ≤ n) && decide (n ≤ 122)) ||
  (decide (48 ≤ n) && decide (n ≤ 57)) || n == 95

/-- Case-insensitive prefix test (the source's regexes carry the `i` flag;
every literal in them is ASCII, where `Char.toLower` agrees with
JavaScript's case folding). -/
def ciStartsWith : List Char → List Char → Bool
  | [], _ => true
  | _ :: _, [] => false
  | p :: ps, c :: cs => (p.toLower == c.toLower) && ciStartsWith ps cs

/-- One atom of the regex shapes occurring in `convertHtmlToMarkdown` and
`analyzePageForTextBrowsing`: a case-insensitive literal, a single
character from a class, a greedy `*` or `+` over a class, an optional
literal character, and a lazy capturing `(.*?)` (whose dot, having no `s`
flag, never matches a newline). -/
inductive RAtom where
  | lit : List Char → RAtom
  | one : (Char → Bool) → RAtom
  | star : (Char → Bool) → RAtom
  | plus : (Char → Bool) → RAtom
  | optc : Char → RAtom
  | lazyGroup : RAtom

/-- Backtracking matcher for a sequence of atoms against an input; on success
returns the captures of the `lazyGroup` atoms in pattern order and the
remaining input.  Greedy atoms try their longest extent first, lazy groups
their shortest, exactly as a JavaScript backtracking engine does. -/
def mmatch : List RAtom → List Char → Option (List (List Char) × List Char)
  | [], s => some ([], s)
  | .lit p :: ps, s => if ciStartsWith p s then mmatch ps (s.drop p.length) else none
  | .one f :: ps, s =>
    match s with
    | [] => none
    | c :: cs => if f c then mmatch ps cs else none
  | .star f :: ps, s =>
    let m := (s.takeWhile f).length
    ((List.range (m + 1)).map (fun i => m - i)).findSome? (fun k => mmatch ps (s.drop k))
  | .plus f :: ps, s =>
    let m := (s.takeWhile f).length
    ((List.range m).map (fun i => m - i)).findSome? (fun k => mmatch ps (s.drop k))
  | .optc c :: ps, s =>
    match s with
    | [] => mmatch ps ([] : List Char)
    | c2 :: cs =>
      if c2 == c then
        match mmatch ps cs with
        | some r => some r
        | none => mmatch ps (c2 :: cs)
      else mmatch ps (c2 :: cs)
  | .lazyGroup :: ps, s =>
    let limit := (s.takeWhile (fun c => !(c == '\n'))).length
    (List.range (limit + 1)).findSome? (fun k =>
      match mmatch ps (s.drop k) with
      | some (caps, rest) => some (s.take k :: caps, rest)
      | none => none)

/-- One pass of JavaScript's global `String.prototype.replace`: scan left to
right, substitute each match and continue after it, copy a character and
move on when no match starts here.  Fuel bounds the recursion; every
pattern fed to it contains a literal, so a match consumes at least one
character and the initial fuel `length + 1` is never exhausted. -/
def replGo (pat : List RAtom) (rep : List (List Char) → List Char) :
    Nat → List Char → List Char
  | 0, s => s
  | _ + 1, [] => []
  | fuel + 1, c :: cs =>
    match mmatch pat (c :: cs) with
    | some (caps, rest) => rep caps ++ replGo pat rep fuel rest
    | none => c :: replGo pat rep fuel cs

/-- `s.replace(pat, rep)` with a global regex, on character lists. -/
def jsReplace (pat : List RAtom) (rep : List (List Char) → List Char)
    (s : List Char) : List Char :=
  replGo pat rep (s.length + 1) s

/-- The class `[^>]`. -/
def nonGt (c : Char) : Bool := !(c == '>')

/-- The pattern family `<TAG[^>]*>(.*?)<\/TAG>` (flags `gi`) used for
headings, paragraphs, lists and bold/italic in `convertHtmlToMarkdown`. -/
def tagPairPat (tag : List Char) : List RAtom :=
  [.lit ('<' :: tag), .star nonGt, .lit ['>'], .lazyGroup,
   .lit ('<' :: '/' :: (tag ++ ['>']))]

/-- Replacement template `PRE$1POST` for `tagPairPat`. -/
def pairRep (pre post : List Char) : List (List Char) → List Char :=
  fun caps => pre ++ caps.headD [] ++ post

/-- The pattern `<br\s*\/?>` (flags `gi`). -/
def brPat : List RAtom := [.lit "<br".data, .star isJsWs, .optc '/', .lit ['>']]

/-- The class `["']`. -/
def isQuoteC (c : Char) : Bool := c == '"' || c == Char.ofNat 39

/-- The pattern `<a\s+[^>]*href=["'](.*?)["'][^>]*>(.*?)<\/a>` (flags `gi`). -/
def linkPat : List RAtom :=
  [.lit "<a".data, .plus isJsWs, .star nonGt, .lit "href=".data, .one isQuoteC,
   .lazyGroup, .one isQuoteC, .star nonGt, .lit ['>'], .lazyGroup, .lit "</a>".data]

/-- Replacement template `[$2]($1)` for `linkPat`. -/
def linkRep : List (List Char) → List Char :=
  fun caps => '[' :: ((caps.getD 1 []) ++ ']' :: '(' :: ((caps.getD 0 []) ++ [')']))

/-- The catch-all tag stripper `<[^>]*>` (flag `g`). -/
def stripPat : List RAtom := [.lit ['<'], .star nonGt, .lit ['>']]

/-- The whitespace collapser `\s+` (flag `g`), replaced by a single space. -/
def wsPat : List RAtom := [.plus isJsWs]

/-- JavaScript's `String.prototype.trim` on character lists (its whitespace
set coincides with `isJsWs`). -/
def jsTrim (l : List Char) : List Char :=
  ((l.dropWhile isJsWs).reverse.dropWhile isJsWs).reverse

/-- Embedding of `convertHtmlToMarkdown` (browserActionTool.ts lines
160-192): the chain of regex replacements in source order — headings
`h1`-`h3`, paragraphs, `<br>`, links, lists, bold/italic, the catch-all tag
stripper, then whitespace collapse and trim. -/
def convertHtmlToMarkdown (html : String) : String :=
  let h := html.data
  let h := jsReplace (tagPairPat "h1".data) (pairRep "# ".data "\n\n".data) h
  let h := jsReplace (tagPairPat "h2".data) (pairRep "## ".data "\n\n".data) h
  let h := jsReplace (tagPairPat "h3".data) (pairRep "### ".data "\n\n".data) h
  let h := jsReplace (tagPairPat "p".data) (pairRep [] "\n\n".data) h
  let h := jsReplace brPat (fun _ => "\n".data) h
  let h := jsReplace linkPat linkRep h
  let h := jsReplace (tagPairPat "ul".data) (pairRep [] "\n".data) h
  let h := jsReplace (tagPairPat "ol".data) (pairRep [] "\n".data) h
  let h := jsReplace (tagPairPat "li".data) (pairRep "- ".data []) h
  let h := jsReplace (tagPairPat "b".data) (pairRep "**".data "**".data) h
  let h := jsReplace (tagPairPat "strong".data) (pairRep "**".data "**".data) h
  let h := jsReplace (tagPairPat "i".data) (pairRep "*".data "*".data) h
  let h := jsReplace (tagPairPat "em".data) (pairRep "*".data "*".data) h
  let h := jsReplace stripPat (fun _ => []) h
  let h := jsReplace wsPat (fun _ => [' ']) h
  String.mk (jsTrim h)


/-- The replacement pipeline of `convertHtmlToMarkdown` before its final
whitespace collapse and trim, named so the single-line property of the
final two steps can be stated about it. -/
def preCollapse (html : String) : List Char :=
  let h := html.data
  let h := jsReplace (tagPairPat "h1".data) (pairRep "# ".data "\n\n".data) h
  let h := jsReplace (tagPairPat "h2".data) (pairRep "## ".data "\n\n".data) h
  let h := jsReplace (tagPairPat "h3".data) (pairRep "### ".data "\n\n".data) h
  let h := jsReplace (tagPairPat "p".data) (pairRep [] "\n\n".data) h
  let h := jsReplace brPat (fun _ => "\n".data) h
  let h := jsReplace linkPat linkRep h
  let h := jsReplace (tagPairPat "ul".data) (pairRep [] "\n".data) h
  let h := jsReplace (tagPairPat "ol".data) (pairRep [] "\n".data) h
  let h := jsReplace (tagPairPat "li".data) (pairRep "- ".data []) h
  let h := jsReplace (tagPairPat "b".data) (pairRep "**".data "**".data) h
  let h := jsReplace (tagPairPat "strong".data) (pairRep "**".data "**".data) h
  let h := jsReplace (tagPairPat "i".data) (pairRep "*".data "*".data) h
  let h := jsReplace (tagPairPat "em".data) (pairRep "*".data "*".data) h
  jsReplace stripPat (fun _ => []) h

/-- A DOM element as the in-page analysis script observes it: the attribute
and property reads the script performs, with the empty string standing for
both an absent attribute (`getAttribute` returning `null`) and a present
empty one — the script only ever tests their JavaScript truthiness or
interpolates truthy values, where the two are indistinguishable. -/
structure DomElem where
  id : String := ""
  name : String := ""
  className : String := ""
  dataId : String := ""
  dataTestId : String := ""
  dataTestid : String := ""
  textContent : String := ""
  href : String := ""
  typ : String := ""
  placeholder : String := ""
deriving DecidableEq, Repr

/-- JavaScript `a || b` on strings (first operand when truthy). -/
def jsOrS (a b : String) : String := if a ≠ "" then a else b

/-- Helper for `jsSplitSpace`: accumulate the current piece (reversed). -/
def splitSpaceAux : List Char → List Char → List String
  | [], acc => [String.mk acc.reverse]
  | c :: cs, acc =>
    if c == ' ' then String.mk acc.reverse :: splitSpaceAux cs []
    else splitSpaceAux cs (c :: acc)

/-- JavaScript `s.split(" ")`: split on every single space, keeping empty
pieces (agrees with `String.splitOn " "`, in a structurally recursive form). -/
def jsSplitSpace (s : String) : List String := splitSpaceAux s.data []

/-- JavaScript `s.startsWith(pre)`. -/
def strStartsWith (s pre : String) : Bool := pre.data.isPrefixOf s.data

/-- The class filter inside `generateRobustSelector`:
`el.className.split(" ").filter((c) => c && !c.startsWith("ng-") && !c.startsWith("js-"))`. -/
def goodClasses (className : String) : List String :=
  (jsSplitSpace className).filter
    (fun c => !(c == "") && !(strStartsWith c "ng-") && !(strStartsWith c "js-"))

/-- Embedding of `generateRobustSelector` (browserActionTool.ts lines 26-47).
The source's final `try` builds a template string, which cannot throw, so
its `catch` branch (`tag:nth-of-type(n)`) is unreachable and the embedded
function returns the XPath form.  String length models JavaScript's
UTF-16 `length` (they agree on the basic multilingual plane). -/
def generateRobustSelector (el : DomElem) (index : Nat) (tag : String) : String :=
  if el.id ≠ "" then "#" ++ el.id
  else if el.name ≠ "" then tag ++ "[name=\"" ++ el.name ++ "\"]"
  else match (if el.className ≠ "" then goodClasses el.className else []) with
  | c :: _ => "." ++ c
  | [] =>
    if el.dataId ≠ "" then tag ++ "[data-id=\"" ++ el.dataId ++ "\"]"
    else if el.dataTestId ≠ "" then tag ++ "[data-test-id=\"" ++ el.dataTestId ++ "\"]"
    else if el.dataTestid ≠ "" then tag ++ "[data-testid=\"" ++ el.dataTestid ++ "\"]"
    else
      let text := String.mk (jsTrim el.textContent.data)
      if text ≠ "" && decide (text.length < 30) then
        tag ++ ":contains(\"" ++ text ++ "\")"
      else "xpath://" ++ tag ++ "[" ++ toString (index + 1) ++ "]"

/-- An entry of the `elements` array the in-page script builds (the
`InteractiveElement` shape of `shared/ExtensionMessage`); fields the
script leaves out of a given entry default to the empty string. -/
structure InteractiveElement where
  typ : String
  selector : String
  text : String := ""
  href : String := ""
  placeholder : String := ""
  description : String
deriving DecidableEq, Repr

/-- JavaScript `String.prototype.includes` (case-sensitive literal
containment), as used by the security-block test. -/
def jsIncludes (s sub : String) : Bool := decide (sub.data <:+: s.data)

/-- What one `page.evaluate` round-trip of the analysis script returns. -/
structure EvalResult where
  content : String
  elements : List InteractiveElement
  isSecurityBlock : Bool
deriving DecidableEq, Repr

/-- The document as the analysis script's queries observe it: the serialized
`document.documentElement.outerHTML` (the empty string also standing for a
falsy one) and the node lists `querySelectorAll` returns for `button`,
`a[href]`, `input` and `textarea`, in document order. -/
structure DomDocument where
  outerHTML : String := ""
  buttons : List DomElem := []
  links : List DomElem := []
  inputs : List DomElem := []
  textareas : List DomElem := []

/-- Embedding of the in-page closure passed to `page.evaluate`
(browserActionTool.ts lines 18-110): serialize the document, enumerate the
four interactive node sets with synthesized selectors and rendered
descriptions, and test the serialized document against the four known
block-page substrings. -/
def evalPageScript (doc : DomDocument) : EvalResult :=
  let content := doc.outerHTML
  let btns := doc.buttons.enum.map (fun p =>
    let text := String.mk (jsTrim p.2.textContent.data)
    let selector := generateRobustSelector p.2 p.1 "button"
    { typ := "button", selector := selector, text := text,
      description := "Button: \"" ++ text ++ "\" (" ++ selector ++ ")" : InteractiveElement })
  let lnks := doc.links.enum.map (fun p =>
    let text := String.mk (jsTrim p.2.textContent.data)
    let href := p.2.href
    let selector := generateRobustSelector p.2 p.1 "a"
    { typ := "link", selector := selector, text := text, href := href,
      description := "Link: \"" ++ text ++ "\" -> " ++ href ++ " (" ++ selector ++ ")" : InteractiveElement })
  let inps := doc.inputs.enum.map (fun p =>
    let t := jsOrS p.2.typ "text"
    let placeholder := p.2.placeholder
    let nm := p.2.name
    let selector := generateRobustSelector p.2 p.1 "input"
    { typ := "input", selector := selector, placeholder := placeholder,
      description := "Input (" ++ t ++ "): " ++ jsOrS nm (jsOrS placeholder "unnamed") ++
        " (" ++ selector ++ ")" : InteractiveElement })
  let tas := doc.textareas.enum.map (fun p =>
    let placeholder := p.2.placeholder
    let nm := p.2.name
    let selector := generateRobustSelector p.2 p.1 "textarea"
    { typ := "textarea", selector := selector, placeholder := placeholder,
      description := "Textarea: " ++ jsOrS nm (jsOrS placeholder "unnamed") ++
        " (" ++ selector ++ ")" : InteractiveElement })
  let isSecurityBlock :=
    jsIncludes content "Cloudflare" || jsIncludes content "Attention Required" ||
    jsIncludes content "Security Check" || jsIncludes content "captcha"
  { content := content, elements := btns ++ lnks ++ inps ++ tas,
    isSecurityBlock := isSecurityBlock }

/-- Remainder of the input just past the earliest case-insensitive
occurrence of `</TAG>`. -/
def closeTagAfter (tag : List Char) : List Char → Option (List Char)
  | [] => none
  | c :: cs =>
    if ciStartsWith ('<' :: '/' :: (tag ++ ['>'])) (c :: cs) then
      some ((c :: cs).drop (tag.length + 3))
    else closeTagAfter tag cs

/-- Scanner for the tag-block-removal regexes
`<TAG\b[^<]*(?:(?!<\/TAG>)<[^<]*)*<\/TAG>` (flags `gi`) replaced by the
empty string: the tempered-greedy body matches exactly the region from
`<TAG` (followed by a word boundary) up to and including the earliest
case-insensitive `</TAG>`; with no close tag the attempt fails and the
scan moves one character on. -/
def removeTagBlocksGo (tag : List Char) : Nat → List Char → List Char
  | 0, s => s
  | _ + 1, [] => []
  | fuel + 1, c :: cs =>
    let opened := ciStartsWith ('<' :: tag) (c :: cs) &&
      (match (c :: cs).drop (tag.length + 1) with
       | [] => true
       | d :: _ => !(isWordChar d))
    if opened then
      match closeTagAfter tag ((c :: cs).drop (tag.length + 1)) with
      | some rest => removeTagBlocksGo tag fuel rest
      | none => c :: removeTagBlocksGo tag fuel cs
    else c :: removeTagBlocksGo tag fuel cs

/-- Global removal of one tag's blocks, as a `String` transform. -/
def removeTagBlocks (tag : String) (s : String) : String :=
  String.mk (removeTagBlocksGo tag.data (s.data.length + 1) s.data)

/-- The cleaning chain of `analyzePageForTextBrowsing` (lines 115-121):
strip `script`, `style`, `nav`, `footer`, `header` and `iframe` subtrees. -/
def cleanHtmlContent (content : String) : String :=
  let c := removeTagBlocks "script" content
  let c := removeTagBlocks "style" c
  let c := removeTagBlocks "nav" c
  let c := removeTagBlocks "footer" c
  let c := removeTagBlocks "header" c
  removeTagBlocks "iframe" c

/-- The analysis value the dispatcher threads around (`{ content, elements,
isSecurityBlock? }`); an absent optional flag reads as `false`. -/
structure PageAnalysis where
  content : String
  elements : List InteractiveElement
  isSecurityBlock : Bool := false
deriving DecidableEq, Repr

/-- The diagnostic record the error path of `analyzePageForTextBrowsing`
assembles from its second `page.evaluate` (lines 133-148). -/
structure DetailedPageState where
  errorMessage : String
  pageTitle : String
  pageUrl : String
  domSnippet : String
deriving DecidableEq, Repr

/-- Embedding of `analyzePageForTextBrowsing` (lines 13-157) given the
outcome of its `page.evaluate` round-trip: on success, clean the serialized
document when truthy and convert it to markdown (the error text when the
cleaned document is empty); on rejection, format a diagnostic content from
the second evaluate's record, or its fixed fallback record when that
evaluate also rejects (`diag = none`). -/
def analyzePageForTextBrowsing (pageEval : Except String EvalResult)
    (diag : Option DetailedPageState) : PageAnalysis :=
  match pageEval with
  | .ok result =>
    let cleanContent := result.content
    let cleanContent := if cleanContent ≠ "" then cleanHtmlContent cleanContent else cleanContent
    let textContent :=
      if cleanContent ≠ "" then convertHtmlToMarkdown cleanContent
      else "Error: No content available for conversion."
    { content := textContent, elements := result.elements,
      isSecurityBlock := result.isSecurityBlock }
  | .error msg =>
    let d := diag.getD
      { errorMessage := msg, pageTitle := "Unknown", pageUrl := "Unknown",
        domSnippet := "Unable to retrieve DOM" }
    { content := "Error analyzing page: " ++ msg ++ "\n\nDetailed State:\n- Page Title: " ++
        d.pageTitle ++ "\n- URL: " ++ d.pageUrl ++ "\n- DOM Snippet: " ++ d.domSnippet,
      elements := [], isSecurityBlock := false }


/-- The payload shape assigned to `browserActionResult` (the
`BrowserActionResult` of `shared/ExtensionMessage`): every field optional,
`none` both for an absent key and an explicit `undefined`. -/
structure BrowserActionResult where
  screenshot : Option String := none
  logs : Option String := none
  currentUrl : Option String := none
  currentMousePosition : Option String := none
  textContent : Option String := none
  interactiveElements : Option (List InteractiveElement) := none
deriving DecidableEq, Repr

/-- Observable events of one dispatcher run: calls on the page-driving and
session collaborators, user-interaction prompts, delays, and bookkeeping. -/
inductive Ev where
  | sayLaunchSpinner
  | askLaunchApproval (url : String)
  | askLaunchEcho
  | sayActionEcho
  | sayAction
  | sayBrowserActionResult
  | missingParam (p : String)
  | toolErrorRecorded
  | launchBrowser
  | closeBrowser
  | goto (tier : Nat) (url : String)
  | reloadPage
  | navigateToUrl (url : String)
  | analysisPass (k : Nat)
  | delayMs (n : Nat)
  | pageClick (selector : String)
  | pageType (selector text : String)
  | scrollScript (dir : String)
  | hoverScript (selector : String)
  | bodyTextExtract
  | fetchExtract
  | sessionClick (c : String)
  | sessionHover (c : String)
  | sessionType (t : String)
  | sessionScrollDown
  | sessionScrollUp
  | sessionResize (s : String)
  | sessionBack
  | sessionForward
  | handledError (msg : String)
deriving DecidableEq, Repr

/-- Modelled from the spec: the mutable state the dispatcher touches on the
calling agent and its session — the MistakeCounter ("process-wide-per-task
counter of consecutive invalid invocations", §3), the Session's open/closed
flag (§3), the results pushed to the caller, every value assigned to
`browserActionResult`, the event trace, and how many analysis evaluates
have run. -/
structure TaskState where
  consecutiveMistakeCount : Nat := 0
  browserOpen : Bool := false
  pushed : List String := []
  results : List BrowserActionResult := []
  trace : List Ev := []
  analysisCalls : Nat := 0
deriving DecidableEq, Repr

/-- The dispatcher's effect monad: state threading plus exceptions whose
state survives a throw (a JavaScript `throw` does not roll back effects). -/
def Act (α : Type) : Type := TaskState → Except String α × TaskState

instance : Monad Act where
  pure a := fun s => (.ok a, s)
  bind x f := fun s =>
    match x s with
    | (.ok a, s1) => f a s1
    | (.error e, s1) => (.error e, s1)

def Act.throw (e : String) : Act α := fun s => (.error e, s)

def Act.tryCatch (x : Act α) (h : String → Act α) : Act α := fun s =>
  match x s with
  | (.ok a, s1) => (.ok a, s1)
  | (.error e, s1) => h e s1

def Act.modifyTask (f : TaskState → TaskState) : Act Unit := fun s => (.ok (), f s)

def emit (e : Ev) : Act Unit :=
  Act.modifyTask fun s => { s with trace := s.trace ++ [e] }

def pushToolResultM (msg : String) : Act Unit :=
  Act.modifyTask fun s => { s with pushed := s.pushed ++ [msg] }

def setActionResult (r : BrowserActionResult) : Act Unit :=
  Act.modifyTask fun s => { s with results := s.results ++ [r] }

def bumpMistakes : Act Unit :=
  Act.modifyTask fun s => { s with consecutiveMistakeCount := s.consecutiveMistakeCount + 1 }

def clearMistakes : Act Unit :=
  Act.modifyTask fun s => { s with consecutiveMistakeCount := 0 }

def recordToolErrorM : Act Unit := emit .toolErrorRecorded

/-- Modelled from the spec: `BrowserSession.closeBrowser` releases the single
Session ("destroyed on `close` or on any fatal error", §3); it always
succeeds and resolves with a (possibly empty) result snapshot. -/
def closeBrowserM : Act Unit :=
  Act.modifyTask fun s => { s with browserOpen := false, trace := s.trace ++ [Ev.closeBrowser] }

/-- The collaborator responses one run observes; analysis evaluates are
indexed by how many have run before (the page may change between
attempts).  Each `Except` is the settled outcome of the corresponding
asynchronous collaborator call — `.error` a rejection, which the source
treats as a catchable exception. -/
structure BEnv where
  supportsImages : Bool := false
  supportsComputerUse : Bool := false
  approveLaunch : Bool := true
  launchResult : Except String Unit := .ok ()
  goto1 : Except String Unit := .ok ()
  goto2 : Except String Unit := .ok ()
  analysisEval : Nat → Except String EvalResult :=
    fun _ => .ok { content := "", elements := [], isSecurityBlock := false }
  diagEval : Nat → Option DetailedPageState := fun _ => none
  bodyEval : Except String String := .ok "No content available."
  fetchEval : Except String String := .ok ""
  doActionResult : BrowserActionResult := {}
  pageClick : Except String Unit := .ok ()
  pageType : Except String Unit := .ok ()
  scrollEval : Except String Unit := .ok ()
  hoverEval : Except String Unit := .ok ()
  navigateToUrlResult : Except String BrowserActionResult := .ok {}
  sessionClick : Except String BrowserActionResult := .ok {}
  sessionHover : Except String BrowserActionResult := .ok {}
  sessionType : Except String BrowserActionResult := .ok {}
  sessionScrollDown : Except String BrowserActionResult := .ok {}
  sessionScrollUp : Except String BrowserActionResult := .ok {}
  sessionResize : Except String BrowserActionResult := .ok {}
  sessionBack : Except String BrowserActionResult := .ok {}
  sessionForward : Except String BrowserActionResult := .ok {}
  sessionClose : BrowserActionResult := {}

/-- The parameters of one `browser_action` tool use; `streaming` is the
block's still-streaming flag (the source reads it as `block.partial`). -/
structure ToolUseParams where
  action : Option String := none
  url : Option String := none
  coordinate : Option String := none
  text : Option String := none
  size : Option String := none
  streaming : Bool := false

/-- JavaScript truthiness of an optional string parameter (`undefined` and
the empty string are the falsy cases). -/
def truthy : Option String → Bool
  | none => false
  | some s => !(s == "")

/-- JavaScript `a || b` where `a` is an optional string and `b` a string. -/
def jsOrO (a : Option String) (b : String) : String :=
  match a with
  | some s => if s ≠ "" then s else b
  | none => b

/-- JavaScript `a || b` on two optional strings. -/
def jsOrOpt (a b : Option String) : Option String :=
  match a with
  | some s => if s ≠ "" then some s else b
  | none => b

/-- Modelled from the spec: the imported `browserActions` enumeration — the
"enum of the ten supported actions" (§3), whose members §4.5 lists. -/
def browserActions : List String :=
  ["launch", "click", "type", "scroll_down", "scroll_up", "hover", "resize",
   "back", "forward", "close"]

/-- The guard of lines 208-219: `!action || !browserActions.includes(action)`. -/
def isInvalidAction (action : Option String) : Bool :=
  match action with
  | none => true
  | some a => a == "" || !(browserActions.contains a)

/-- Modelled from the spec: `sayAndCreateMissingParamError` renders the
"standard missing-parameter message" (§7) for the given tool and parameter. -/
def missingParamMessage (tool param : String) : String :=
  "Missing required parameter " ++ param ++ " for tool " ++ tool

/-- The source's `sayAndCreateMissingParamError` call: records the report and
yields the message the dispatcher then pushes. -/
def sayMissingParamError (tool param : String) : Act String := do
  emit (.missingParam param)
  pure (missingParamMessage tool param)

/-- Modelled from the spec: `formatResponse.toolResult` wraps a text into
"a single formatted text block" (§6); the block carries the text itself. -/
def toolResult (text : String) : String := text

/-- Modelled from the spec: the image-carrying variant of
`formatResponse.toolResult`; the block still carries the text itself. -/
def toolResultWithImages (text : String) (_images : List String) : String := text

/-- One dispatcher-side call of `analyzePageForTextBrowsing(page)`: consumes
the next analysis evaluate outcome of the environment. -/
def analyzePageM (env : BEnv) : Act PageAnalysis := fun s =>
  let k := s.analysisCalls
  (.ok (analyzePageForTextBrowsing (env.analysisEval k) (env.diagEval k)),
   { s with analysisCalls := k + 1, trace := s.trace ++ [Ev.analysisPass k] })

/-- Modelled from the spec: `BrowserSession.doAction` runs the callback
against the live page and resolves with a result snapshot; a rejection
inside the callback rejects the whole call (the page-driving collaborator's
operations "all may reject; this core treats rejection as a normal,
retry-eligible outcome", §6). -/
def doActionM (env : BEnv) (cb : Act α) : Act (α × BrowserActionResult) := do
  let a ← cb
  pure (a, env.doActionResult)

/-- Modelled from the spec: `BrowserSession.launchBrowser` opens the single
Session ("created on `launch`", §3); a rejection propagates. -/
def launchBrowserM (env : BEnv) : Act Unit :=
  match env.launchResult with
  | .ok _ => Act.modifyTask fun s =>
      { s with browserOpen := true, trace := s.trace ++ [Ev.launchBrowser] }
  | .error e => Act.throw e

/-- The `for (attempt = 1; attempt <= 3; attempt++)` loop of the text-mode
launch path (lines 300-323): a security block rewrites the pending content,
backs off `2000 * attempt` and reloads unless on the last attempt; a pass
with truthy content or at least one element is accepted and ends the loop;
otherwise the pending content becomes a retry notice and the loop backs off
`1500 * attempt`. -/
def launchRetryLoop (env : BEnv) : List Nat → PageAnalysis → Act PageAnalysis
  | [], pa => pure pa
  | a :: rest, pa => do
    let r ← analyzePageM env
    if r.isSecurityBlock then do
      let pa2 := { pa with
        content := "Security block detected (e.g., Cloudflare). Retrying navigation..." }
      emit (.delayMs (2000 * a))
      if a < 3 then emit .reloadPage else pure ()
      launchRetryLoop env rest pa2
    else if r.content ≠ "" ∨ r.elements ≠ [] then pure r
    else do
      let pa2 := { pa with
        content := "Page content could not be loaded. Retrying (" ++ toString a ++ "/3)..." }
      emit (.delayMs (1500 * a))
      launchRetryLoop env rest pa2

/-- The post-loop guard of the text-mode launch path (lines 324-337): only
when the pending content is empty, read `document.body.innerText` in the
page and wrap its first 1000 characters as the accepted content. -/
def launchFallbackExtract (env : BEnv) (pa : PageAnalysis) : Act PageAnalysis := do
  if pa.content = "" then do
    let pa2 := { pa with content :=
      "Error: Page content could not be loaded after multiple retries. Attempting fallback extraction..." }
    emit .bodyTextExtract
    match env.bodyEval with
    | .error e => Act.throw e
    | .ok fallbackContent =>
      if fallbackContent ≠ "" then
        pure { pa2 with content :=
          "Fallback content extracted:\n\n" ++ fallbackContent.take 1000 ++ "..." }
      else
        pure { pa2 with content :=
          "Error: No content could be extracted even with fallback method." }
  else pure pa

/-- The callback the text-mode launch passes to `doAction` (lines 285-338):
navigate with the strict-timeout `goto`, once more with relaxed options on
rejection (throwing a composed error when that also rejects), then the
bounded analysis loop and the post-loop fallback guard. -/
def launchTextCallback (env : BEnv) (url : String) : Act PageAnalysis := do
  emit (.goto 1 url)
  (match env.goto1 with
   | .ok _ => pure ()
   | .error _ => do
     emit (.goto 2 url)
     match env.goto2 with
     | .ok _ => pure ()
     | .error e2 => Act.throw ("Failed to navigate to " ++ url ++ ": " ++ e2))
  let pa0 : PageAnalysis := { content := "Error: Page content initialization failed.", elements := [] }
  let pa ← launchRetryLoop env [1, 2, 3] pa0
  launchFallbackExtract env pa

/-- The 3-attempt analysis loop the click, scroll, hover and history
branches all duplicate (lines 420-428, 537-545, 621-629, 696-704); `word`
is the per-branch noun in the retry notice ("click", "scroll", "hover",
"navigation"). -/
def actionRetryLoop (env : BEnv) (word : String) :
    List Nat → PageAnalysis → Act PageAnalysis
  | [], pa => pure pa
  | a :: rest, pa => do
    let r ← analyzePageM env
    if r.content ≠ "" ∨ r.elements ≠ [] then pure r
    else do
      let pa2 := { pa with content :=
        "Page content could not be loaded after " ++ word ++ ". Retrying (" ++ toString a ++ "/3)..." }
      emit (.delayMs (1500 * a))
      actionRetryLoop env word rest pa2

/-- The post-loop fallback guard those same four branches duplicate (lines
429-441, 546-558, 630-642, 705-717). -/
def actionFallbackExtract (env : BEnv) (word : String) (pa : PageAnalysis) :
    Act PageAnalysis := do
  if pa.content = "" then do
    let pa2 := { pa with content :=
      "Error: Page content could not be loaded after " ++ word ++ " retries. Attempting fallback extraction..." }
    emit .bodyTextExtract
    match env.bodyEval with
    | .error e => Act.throw e
    | .ok fallbackContent =>
      if fallbackContent ≠ "" then
        pure { pa2 with content :=
          "Fallback content extracted after " ++ word ++ ":\n\n" ++ fallbackContent.take 1000 ++ "..." }
      else
        pure { pa2 with content :=
          "Error: No content could be extracted even with fallback method after " ++ word ++ "." }
  else pure pa

/-- Initial pending analysis plus loop plus fallback guard, as each
post-action branch runs them. -/
def postActionAnalysis (env : BEnv) (word : String) : Act PageAnalysis := do
  let pa0 : PageAnalysis :=
    { content := "Error: Page content initialization failed after " ++ word ++ ".", elements := [] }
  let pa ← actionRetryLoop env word [1, 2, 3] pa0
  actionFallbackExtract env word pa

/-- Renders `elements.map((el) => `- ${el.description}`).join("\n")`. -/
def elementsLines (els : List InteractiveElement) : String :=
  String.intercalate "\n" (els.map (fun el => "- " ++ el.description))

/-- The `launch` branch (lines 242-387): missing `url` is a validation
failure that force-closes the session; otherwise the counter resets,
approval is asked, and the capability gate picks the visual
navigate-and-screenshot path or the text path (navigation, retry-controlled
analysis, and on a thrown error one fallback in-page fetch before a
composed error that force-closes the session).  Returns the
`browserActionResult` to report, or `none` when the branch already
returned. -/
def launchDispatch (env : BEnv) (p : ToolUseParams) : Act (Option BrowserActionResult) := do
  if truthy p.url = false then do
    bumpMistakes
    recordToolErrorM
    let msg ← sayMissingParamError "browser_action" "url"
    pushToolResultM msg
    closeBrowserM
    pure none
  else do
    let url := p.url.getD ""
    clearMistakes
    emit (.askLaunchApproval url)
    if env.approveLaunch = false then pure none
    else if env.supportsImages then do
      emit .sayLaunchSpinner
      launchBrowserM env
      emit (.navigateToUrl url)
      match env.navigateToUrlResult with
      | .ok r => do
        setActionResult r
        pure (some r)
      | .error e => Act.throw e
    else
      Act.tryCatch
        (do
          launchBrowserM env
          let pr ← doActionM env (launchTextCallback env url)
          let pa := pr.1
          let r : BrowserActionResult :=
            { logs := some ("Navigated to " ++ url ++
                " using text-based browsing (model does not support images)"),
              screenshot := none,
              textContent := some pa.content,
              currentUrl := some url,
              interactiveElements := some pa.elements }
          setActionResult r
          pure (some r))
        (fun error =>
          Act.tryCatch
            (do
              emit .fetchExtract
              let fallbackContent ← (match env.fetchEval with
                | .ok t => pure t
                | .error e => Act.throw e)
              if fallbackContent ≠ "" then do
                let content := "Fallback content fetched:\n\n" ++ fallbackContent.take 1000 ++ "..."
                let r : BrowserActionResult :=
                  { logs := some ("Navigated to " ++ url ++
                      " using text-based browsing with fallback fetch."),
                    screenshot := none,
                    textContent := some content,
                    currentUrl := some url,
                    interactiveElements := some ([] : List InteractiveElement) }
                setActionResult r
                pure (some r)
              else do
                closeBrowserM
                Act.throw ("Failed during browser launch or navigation, and fallback fetch failed: " ++ error))
            (fun fallbackError => do
              closeBrowserM
              Act.throw ("Failed during browser launch or navigation, and fallback fetch failed: " ++ fallbackError)))

/-- The enhanced text-mode interaction block (lines 394-763), entered when
the model does not support images and the action is not `close`; every
branch pushes its own result and returns. -/
def textModeDispatch (env : BEnv) (p : ToolUseParams) (action : String) : Act Unit := do
  if action = "click" then
    if truthy p.coordinate = false then do
      bumpMistakes
      recordToolErrorM
      let msg ← sayMissingParamError "browser_action" "coordinate"
      pushToolResultM msg
    else
      let selector := p.coordinate.getD ""
      Act.tryCatch
        (do
          let pr ← doActionM env (do
            emit (.pageClick selector)
            (match env.pageClick with
             | .ok _ => pure ()
             | .error e => Act.throw
                 ("Failed to click element with selector \"" ++ selector ++ "\": " ++ e))
            postActionAnalysis env "click")
          let pa := pr.1
          let currentUrl := jsOrO pr.2.currentUrl (jsOrO p.url "")
          let r : BrowserActionResult :=
            { logs := some ("Clicked element with selector \"" ++ selector ++ "\". Page updated."),
              currentUrl := some currentUrl,
              textContent := some pa.content,
              interactiveElements := some pa.elements }
          setActionResult r
          pushToolResultM (toolResult
            ("The browser action has been executed using text-based browsing. Element was clicked programmatically.\n\nConsole logs:\n" ++
             jsOrO r.logs "(No new logs)" ++
             "\n\nUpdated page content:\n" ++ pa.content ++
             "\n\nAvailable interactive elements:\n" ++ elementsLines pa.elements ++
             "\n\n(REMEMBER: For text-based browsing, use CSS selectors like \"button.submit\", \"#login-btn\", \"a[href=\x27/about\x27]\" instead of coordinates.)")))
        (fun error => do
          bumpMistakes
          recordToolErrorM
          pushToolResultM (toolResult
            ("Failed to click element: " ++ error ++
             ". For text-based browsing, provide a CSS selector (e.g., \"button.submit\", \"#login-btn\", \"a[href=\x27/about\x27]\") instead of coordinates. Ensure the selector is unique and the element is interactable.")))
  else if action = "type" then
    if truthy p.coordinate = false ∨ truthy p.text = false then do
      bumpMistakes
      recordToolErrorM
      let missing := if truthy p.coordinate = false then "coordinate" else "text"
      let msg ← sayMissingParamError "browser_action" missing
      pushToolResultM msg
    else
      let selector := p.coordinate.getD ""
      let tx := p.text.getD ""
      Act.tryCatch
        (do
          let pr ← doActionM env (do
            emit (.pageType selector tx)
            match env.pageType with
            | .ok _ => pure ()
            | .error e => Act.throw e)
          let r : BrowserActionResult :=
            { logs := some ("Typed \"" ++ tx ++ "\" into element with selector \"" ++ selector ++ "\"."),
              currentUrl := jsOrOpt pr.2.currentUrl p.url }
          setActionResult r
          pushToolResultM (toolResult
            ("The browser action has been executed using text-based browsing. Text was typed programmatically.\n\nConsole logs:\n" ++
             jsOrO r.logs "(No new logs)" ++
             "\n\n(REMEMBER: For text-based browsing, use CSS selectors like \"input[name=\x27username\x27]\", \"#password\", \"textarea.comment\" for the coordinate parameter.)")))
        (fun error => do
          bumpMistakes
          recordToolErrorM
          pushToolResultM (toolResult
            ("Failed to type into element: " ++ error ++
             ". For text-based browsing, provide a CSS selector for the input field (e.g., \"input[name=\x27username\x27]\", \"#password\", \"textarea.comment\") in the coordinate parameter. Ensure the selector targets an existing input field.")))
  else if action = "scroll_down" ∨ action = "scroll_up" then
    Act.tryCatch
      (do
        let pr ← doActionM env (do
          emit (.scrollScript action)
          (match env.scrollEval with
           | .ok _ => pure ()
           | .error e => Act.throw e)
          emit (.delayMs 500)
          postActionAnalysis env "scroll")
        let pa := pr.1
        let currentUrl := jsOrO pr.2.currentUrl (jsOrO p.url "")
        let r : BrowserActionResult :=
          { logs := some ("Scrolled " ++ (if action = "scroll_down" then "down" else "up") ++
              " on the page. Page updated."),
            currentUrl := some currentUrl,
            textContent := some pa.content,
            interactiveElements := some pa.elements }
        setActionResult r
        pushToolResultM (toolResult
          ("The browser action has been executed using text-based browsing. Page was scrolled " ++
           (if action = "scroll_down" then "down" else "up") ++
           " programmatically.\n\nConsole logs:\n" ++
           jsOrO r.logs "(No new logs)" ++
           "\n\nUpdated page content:\n" ++ pa.content ++
           "\n\nAvailable interactive elements:\n" ++ elementsLines pa.elements ++
           "\n\n(REMEMBER: For text-based browsing, use CSS selectors like \"button.submit\", \"#login-btn\", \"a[href=\x27/about\x27]\" instead of coordinates.)")))
      (fun error => do
        bumpMistakes
        recordToolErrorM
        pushToolResultM (toolResult
          ("Failed to scroll page: " ++ error ++
           ". Ensure the browser is open and the page is loaded.")))
  else if action = "hover" then
    if truthy p.coordinate = false then do
      bumpMistakes
      recordToolErrorM
      let msg ← sayMissingParamError "browser_action" "coordinate"
      pushToolResultM msg
    else
      let selector := p.coordinate.getD ""
      Act.tryCatch
        (do
          let pr ← doActionM env (do
            emit (.hoverScript selector)
            (match env.hoverEval with
             | .ok _ => pure ()
             | .error e => Act.throw e)
            emit (.delayMs 300)
            postActionAnalysis env "hover")
          let pa := pr.1
          let currentUrl := jsOrO pr.2.currentUrl (jsOrO p.url "")
          let r : BrowserActionResult :=
            { logs := some ("Hovered over element with selector \"" ++ selector ++ "\". Page updated."),
              currentUrl := some currentUrl,
              textContent := some pa.content,
              interactiveElements := some pa.elements }
          setActionResult r
          pushToolResultM (toolResult
            ("The browser action has been executed using text-based browsing. Element was hovered over programmatically.\n\nConsole logs:\n" ++
             jsOrO r.logs "(No new logs)" ++
             "\n\nUpdated page content:\n" ++ pa.content ++
             "\n\nAvailable interactive elements:\n" ++ elementsLines pa.elements ++
             "\n\n(REMEMBER: For text-based browsing, use CSS selectors like \"button.submit\", \"#login-btn\", \"a[href=\x27/about\x27]\" instead of coordinates.)")))
        (fun error => do
          bumpMistakes
          recordToolErrorM
          pushToolResultM (toolResult
            ("Failed to hover over element: " ++ error ++
             ". For text-based browsing, provide a CSS selector (e.g., \"button.submit\", \"#login-btn\", \"a[href=\x27/about\x27]\") instead of coordinates. Ensure the selector is unique and the element is interactable.")))
  else if action = "back" ∨ action = "forward" then
    Act.tryCatch
      (do
        let navigationResult ←
          (if action = "back" then do
            emit .sessionBack
            match env.sessionBack with
            | .ok r => pure r
            | .error e => Act.throw e
          else do
            emit .sessionForward
            match env.sessionForward with
            | .ok r => pure r
            | .error e => Act.throw e)
        let pr ← doActionM env (do
          emit (.delayMs 500)
          postActionAnalysis env "navigation")
        let pa := pr.1
        let currentUrl := jsOrO navigationResult.currentUrl (jsOrO p.url "")
        let r : BrowserActionResult :=
          { logs := some ("Navigated " ++ (if action = "back" then "back" else "forward") ++
              " in browser history. Page updated."),
            currentUrl := some currentUrl,
            textContent := some pa.content,
            interactiveElements := some pa.elements }
        setActionResult r
        pushToolResultM (toolResult
          ("The browser action has been executed using text-based browsing. Navigated " ++
           (if action = "back" then "back" else "forward") ++
           " in browser history programmatically.\n\nConsole logs:\n" ++
           jsOrO r.logs "(No new logs)" ++
           "\n\nUpdated page content:\n" ++ pa.content ++
           "\n\nAvailable interactive elements:\n" ++ elementsLines pa.elements ++
           "\n\n(REMEMBER: For text-based browsing, use CSS selectors like \"button.submit\", \"#login-btn\", \"a[href=\x27/about\x27]\" instead of coordinates.)")))
      (fun error => do
        bumpMistakes
        recordToolErrorM
        pushToolResultM (toolResult
          ("Failed to navigate " ++ (if action = "back" then "back" else "forward") ++ ": " ++
           error ++ ". Ensure the browser is open and there is history to navigate.")))
  else do
    bumpMistakes
    recordToolErrorM
    pushToolResultM (toolResult
      ("The action \"" ++ action ++
       "\" is not supported for text-based browsing (model does not support images). Supported actions: \"launch\" (to fetch page content), \"click\" (using CSS selectors), \"type\" (using CSS selectors), \"scroll_down\", \"scroll_up\", \"hover\" (using CSS selectors), \"back\", \"forward\", and \"close\"."))

/-- Lifts a settled collaborator response into the monad. -/
def fromSessionResult : Except String BrowserActionResult → Act BrowserActionResult
  | .ok r => pure r
  | .error e => Act.throw e

/-- The visual-session dispatch of non-launch actions (lines 765-836):
per-action validation (missing selector, text or size force-closes the
session), counter reset, the progress `say`, then the switch over the
session collaborator's primitives. -/
def visualDispatch (env : BEnv) (p : ToolUseParams) (action : String) :
    Act (Option BrowserActionResult) := do
  if (action = "click" ∨ action = "hover") ∧ truthy p.coordinate = false then do
    bumpMistakes
    recordToolErrorM
    let msg ← sayMissingParamError "browser_action" "coordinate"
    pushToolResultM msg
    closeBrowserM
    pure none
  else if action = "type" ∧ truthy p.text = false then do
    bumpMistakes
    recordToolErrorM
    let msg ← sayMissingParamError "browser_action" "text"
    pushToolResultM msg
    closeBrowserM
    pure none
  else if action = "resize" ∧ truthy p.size = false then do
    bumpMistakes
    recordToolErrorM
    let msg ← sayMissingParamError "browser_action" "size"
    pushToolResultM msg
    closeBrowserM
    pure none
  else do
    clearMistakes
    emit .sayAction
    let r ← (
      if action = "click" then do
        emit (.sessionClick (p.coordinate.getD ""))
        fromSessionResult env.sessionClick
      else if action = "hover" then do
        emit (.sessionHover (p.coordinate.getD ""))
        fromSessionResult env.sessionHover
      else if action = "type" then do
        emit (.sessionType (p.text.getD ""))
        fromSessionResult env.sessionType
      else if action = "scroll_down" then do
        emit .sessionScrollDown
        fromSessionResult env.sessionScrollDown
      else if action = "scroll_up" then do
        emit .sessionScrollUp
        fromSessionResult env.sessionScrollUp
      else if action = "resize" then do
        emit (.sessionResize (p.size.getD ""))
        fromSessionResult env.sessionResize
      else if action = "back" then do
        emit .sessionBack
        fromSessionResult env.sessionBack
      else if action = "forward" then do
        emit .sessionForward
        fromSessionResult env.sessionForward
      else do
        closeBrowserM
        pure env.sessionClose)
    setActionResult r
    pure (some r)

/-- The final reporting switch (lines 839-891): `close` confirms the
release; otherwise a truthy `textContent` selects the text-based report
(content plus the bulleted element inventory), and anything else the visual
report whose image list carries the screenshot exactly when truthy. -/
def finalDispatchReport (action : String) (r : BrowserActionResult) : Act Unit := do
  if action = "close" then
    pushToolResultM (toolResult
      "The browser has been closed. You may now proceed to using other tools.")
  else if truthy r.textContent then do
    let els := r.interactiveElements.getD []
    let elementsText :=
      if els.length > 0 then "\n\nAvailable interactive elements:\n" ++ elementsLines els
      else ""
    pushToolResultM (toolResult
      ("The browser action has been executed using text-based browsing. The page content has been converted to markdown for your analysis.\n\nConsole logs:\n" ++
       jsOrO r.logs "(No new logs)" ++
       "\n\nPage content (markdown):\n" ++ r.textContent.getD "" ++ elementsText ++
       "\n\n(REMEMBER: For text-based browsing, use CSS selectors like \"button.submit\", \"#login-btn\", \"a[href=\x27/about\x27]\" instead of coordinates. If you need to proceed to using non-`browser_action` tools, you MUST first close the browser.)"))
  else do
    emit .sayBrowserActionResult
    pushToolResultM (toolResultWithImages
      ("The browser action has been executed. The console logs and screenshot have been captured for your analysis.\n\nConsole logs:\n" ++
       jsOrO r.logs "(No new logs)" ++
       "\n\n(REMEMBER: if you need to proceed to using non-`browser_action` tools or launch a new browser, you MUST first close cline browser. For example, if after analyzing the logs and screenshot you need to edit a file, you must first close the browser before you can use the write_to_file tool.)")
      (if truthy r.screenshot then [r.screenshot.getD ""] else []))

/-- Embedding of `browserActionTool` (lines 194-901): the invalid-action
guard (which on a complete block counts a mistake, reports the missing
`action` parameter and force-closes the session), then under the outer
try/catch either the streaming progress echo or the complete dispatch —
launch branch, text-mode interaction block, or visual validation and
switch — followed by the final reporting switch when the branch fell
through with a result.  The outer catch force-closes the session and hands
the error to the generic handler. -/
def browserActionTool (env : BEnv) (p : ToolUseParams) : Act Unit := do
  if isInvalidAction p.action then
    if p.streaming = false then do
      bumpMistakes
      recordToolErrorM
      let msg ← sayMissingParamError "browser_action" "action"
      pushToolResultM msg
      closeBrowserM
    else pure ()
  else
    let a := p.action.getD ""
    Act.tryCatch
      (if p.streaming then
        (if a = "launch" then emit .askLaunchEcho else emit .sayActionEcho)
      else do
        let r? ← (
          if a = "launch" then launchDispatch env p
          else if env.supportsImages = false ∧ a ≠ "close" then do
            textModeDispatch env p a
            pure none
          else visualDispatch env p a)
        match r? with
        | none => pure ()
        | some r => finalDispatchReport a r)
      (fun error => do
        closeBrowserM
        emit (.handledError error))

/-- Runs one complete tool invocation from a task state. -/
def runBrowserAction (env : BEnv) (p : ToolUseParams) (s : TaskState) : TaskState :=
  (browserActionTool env p s).2

/-- Concrete collaborator environment for the retry-exhaustion scenario:
every analysis evaluate returns a serialized document that cleans and
converts to the empty string and carries no interactive element. -/
def envExhausted : BEnv :=
  { analysisEval := fun _ => .ok { content := "<div></div>", elements := [], isSecurityBlock := false } }

/-- A complete `launch` command at a fixed URL. -/
def pLaunchExample : ToolUseParams :=
  { action := some "launch", url := some "https://example.com" }

/-- Environment in which the page-driving `click` call rejects. -/
def envClickRejects : BEnv :=
  { pageClick := .error "No node found for selector: #missing" }

/-- A complete text-mode `click` command aimed at a missing element. -/
def pClickMissing : ToolUseParams :=
  { action := some "click", coordinate := some "#missing" }

/-- An analysis outcome with one interactive element (so a pass accepts). -/
def evalOneButton : EvalResult :=
  { content := "<h1>Example</h1>",
    elements := [{ typ := "button", selector := "#go", text := "Go",
                   description := "Button: \"Go\" (#go)" }],
    isSecurityBlock := false }

/-- Environment in which the page-driving `click` succeeds and the first
analysis pass is acceptable. -/
def envClickOk : BEnv := { analysisEval := fun _ => .ok evalOneButton }

/-- A complete text-mode `type` command with both parameters present. -/
def pTypeOk : ToolUseParams :=
  { action := some "type", coordinate := some "#in", text := some "hello" }

/-- A complete `launch` command missing its `url` parameter. -/
def pLaunchNoUrl : ToolUseParams := { action := some "launch" }

/-- A complete command whose `action` is not a supported action name. -/
def pBadAction : ToolUseParams := { action := some "frobnicate" }

/-- The streaming variant of the unsupported-action command. -/
def pBadActionStreaming : ToolUseParams :=
  { action := some "frobnicate", streaming := true }

/-- The computation never touches the recorded `browserActionResult` list. -/
def keepsResults {α : Type} (x : Act α) : Prop :=
  ∀ s : TaskState, ((x s).2).results = s.results

/-- Every record the computation appends to the result list satisfies `P`. -/
def addsOnly {α : Type} (P : BrowserActionResult → Prop) (x : Act α) : Prop :=
  ∀ (s : TaskState) (rr : BrowserActionResult),
    rr ∈ ((x s).2).results → rr ∈ s.results ∨ P rr

/-- Shape discipline of a text-mode result for a given action name: no
screenshot, and (except for `type`) markdown content plus the element
inventory. -/
def textResultOk (act : String) (rr : BrowserActionResult) : Prop :=
  rr.screenshot = none ∧
  (act = "type" ∨ (rr.textContent ≠ none ∧ rr.interactiveElements ≠ none))

/-- An analysis outcome with empty serialized content but one interactive
element: a pass over it is accepted through its element count. -/
def evalElemsOnly : EvalResult :=
  { content := "",
    elements := [{ typ := "button", selector := "#go", text := "Go",
                   description := "Button: \"Go\" (#go)" }],
    isSecurityBlock := false }

/-- Environment in which the page click succeeds and the first analysis
pass is accepted through its element count. -/
def envClickAccept : BEnv := { analysisEval := fun _ => .ok evalElemsOnly }

/-- The result string the text-mode click failure path pushes (the catch of
lines 466-475, whose `error.message` is the composed message thrown at line
415): it interpolates the offending selector and ends with the
unique-CSS-selector hint. -/
def clickFailMessage (sel err : String) : String :=
  "Failed to click element: " ++
  ("Failed to click element with selector \"" ++ sel ++ "\": " ++ err) ++
  ". For text-based browsing, provide a CSS selector (e.g., \"button.submit\", \"#login-btn\", \"a[href=\x27/about\x27]\") instead of coordinates. Ensure the selector is unique and the element is interactable."

@[simp] theorem act_bind_apply {α β : Type} (x : Act α) (f : α → Act β) (s : TaskState) :
    (x >>= f) s =
      match x s with
      | (.ok a, s1) => f a s1
      | (.error e, s1) => (.error e, s1) := rfl

@[simp] theorem act_pure_apply {α : Type} (a : α) (s : TaskState) :
    (pure a : Act α) s = (.ok a, s) := rfl

@[simp] theorem act_throw_apply {α : Type} (e : String) (s : TaskState) :
    (Act.throw e : Act α) s = (.error e, s) := rfl

@[simp] theorem act_tryCatch_apply {α : Type} (x : Act α) (h : String → Act α) (s : TaskState) :
    Act.tryCatch x h s =
      match x s with
      | (.ok a, s1) => (.ok a, s1)
      | (.error e, s1) => h e s1 := rfl

@[simp] theorem act_modifyTask_apply (f : TaskState → TaskState) (s : TaskState) :
    Act.modifyTask f s = (.ok (), f s) := rfl

theorem hash_ne_dot (x y : String) : "#" ++ x ≠ "." ++ y := by
  intro h
  have hd : ("#" ++ x).data = ("." ++ y).data := congrArg String.data h
  simp [String.data_append] at hd

/-- C8: the HTML-to-markdown converter is a pure function of its input (a
total Lean function, trivially deterministic), and on
`"<h1>A</h1><p>B</p>"` it yields `"# A B"` — text that starts with `# A`,
ends with `B`, and holds no residual angle bracket. -/
theorem c8_markdown_roundtrip :
    (∀ h : String, convertHtmlToMarkdown h = convertHtmlToMarkdown h) ∧
    convertHtmlToMarkdown "<h1>A</h1><p>B</p>" = "# A B" ∧
    "# A".data <+: (convertHtmlToMarkdown "<h1>A</h1><p>B</p>").data ∧
    "B".data <:+ (convertHtmlToMarkdown "<h1>A</h1><p>B</p>").data ∧
    (∀ c ∈ (convertHtmlToMarkdown "<h1>A</h1><p>B</p>").data, c ≠ '<' ∧ c ≠ '>') :=
  ⟨fun _ => rfl, by decide, by decide, by decide, by decide⟩

/-- C4: the in-page analysis sets `isSecurityBlock` to `true` whenever the
serialized document contains the literal substring `"Cloudflare"`, and to
`false` whenever it contains none of the four known block-page
substrings. -/
theorem c4_security_block_detection (doc : DomDocument) :
    ("Cloudflare".data <:+: doc.outerHTML.data → (evalPageScript doc).isSecurityBlock = true) ∧
    (¬ ("Cloudflare".data <:+: doc.outerHTML.data) →
     ¬ ("Attention Required".data <:+: doc.outerHTML.data) →
     ¬ ("Security Check".data <:+: doc.outerHTML.data) →
     ¬ ("captcha".data <:+: doc.outerHTML.data) →
     (evalPageScript doc).isSecurityBlock = false) := by
  constructor
  · intro h1
    simp [evalPageScript, jsIncludes, h1]
  · intro h1 h2 h3 h4
    simp [evalPageScript, jsIncludes, h1, h2, h3, h4]

/-- Witness for C4 at concrete documents: a Cloudflare interstitial is
flagged, a plain page is not. -/
theorem c4_security_block_witness :
    (evalPageScript { outerHTML := "<html>Cloudflare says hi</html>" }).isSecurityBlock = true ∧
    (evalPageScript { outerHTML := "<html><p>plain page</p></html>" }).isSecurityBlock = false :=
  ⟨(c4_security_block_detection { outerHTML := "<html>Cloudflare says hi</html>" }).1 (by decide),
   (c4_security_block_detection { outerHTML := "<html><p>plain page</p></html>" }).2
     (by decide) (by decide) (by decide) (by decide)⟩

/-- C5: selector synthesis follows the precedence id, name, first
non-framework class, data attributes (`data-id`, `data-test-id`,
`data-testid`), short visible text, positional XPath; the first matching
rule wins, so an element with an id synthesizes to `#id` — never to a
class selector. -/
theorem c5_selector_precedence (el : DomElem) (idx : Nat) (tag : String) :
    (el.id ≠ "" →
      generateRobustSelector el idx tag = "#" ++ el.id ∧
      ∀ y : String, generateRobustSelector el idx tag ≠ "." ++ y) ∧
    (el.id = "" → el.name ≠ "" →
      generateRobustSelector el idx tag = tag ++ "[name=\"" ++ el.name ++ "\"]") ∧
    (el.id = "" → el.name = "" → el.className ≠ "" →
      ∀ c rest, goodClasses el.className = c :: rest →
      generateRobustSelector el idx tag = "." ++ c) ∧
    (el.id = "" → el.name = "" → (el.className = "" ∨ goodClasses el.className = []) →
      el.dataId ≠ "" →
      generateRobustSelector el idx tag = tag ++ "[data-id=\"" ++ el.dataId ++ "\"]") ∧
    (el.id = "" → el.name = "" → (el.className = "" ∨ goodClasses el.className = []) →
      el.dataId = "" → el.dataTestId ≠ "" →
      generateRobustSelector el idx tag = tag ++ "[data-test-id=\"" ++ el.dataTestId ++ "\"]") ∧
    (el.id = "" → el.name = "" → (el.className = "" ∨ goodClasses el.className = []) →
      el.dataId = "" → el.dataTestId = "" → el.dataTestid ≠ "" →
      generateRobustSelector el idx tag = tag ++ "[data-testid=\"" ++ el.dataTestid ++ "\"]") ∧
    (el.id = "" → el.name = "" → (el.className = "" ∨ goodClasses el.className = []) →
      el.dataId = "" → el.dataTestId = "" → el.dataTestid = "" →
      jsTrim el.textContent.data ≠ [] →
      (jsTrim el.textContent.data).length < 30 →
      generateRobustSelector el idx tag =
        tag ++ ":contains(\"" ++ String.mk (jsTrim el.textContent.data) ++ "\")") ∧
    (el.id = "" → el.name = "" → (el.className = "" ∨ goodClasses el.className = []) →
      el.dataId = "" → el.dataTestId = "" → el.dataTestid = "" →
      (jsTrim el.textContent.data = [] ∨ 30 ≤ (jsTrim el.textContent.data).length) →
      generateRobustSelector el idx tag =
        "xpath://" ++ tag ++ "[" ++ toString (idx + 1) ++ "]") := by
  refine ⟨?_, ?_, ?_, ?_, ?_, ?_, ?_, ?_⟩
  · intro h
    refine ⟨by simp [generateRobustSelector, h], fun y => ?_⟩
    rw [show generateRobustSelector el idx tag = "#" ++ el.id from by
      simp [generateRobustSelector, h]]
    exact hash_ne_dot el.id y
  · intro h1 h2
    simp [generateRobustSelector, h1, h2]
  · intro h1 h2 h3 c rest hc
    simp [generateRobustSelector, h1, h2, h3, hc]
  · intro h1 h2 h3 h4
    rcases h3 with h3 | h3 <;>
      simp [generateRobustSelector, h1, h2, h3, h4]
  · intro h1 h2 h3 h4 h5
    rcases h3 with h3 | h3 <;>
      simp [generateRobustSelector, h1, h2, h3, h4, h5]
  · intro h1 h2 h3 h4 h5 h6
    rcases h3 with h3 | h3 <;>
      simp [generateRobustSelector, h1, h2, h3, h4, h5, h6]
  · intro h1 h2 h3 h4 h5 h6 h7 h8
    rcases h3 with h3 | h3 <;>
      simp [generateRobustSelector, String.length, String.ext_iff, h1, h2, h3, h4, h5, h6,
        h7, h8]
  · intro h1 h2 h3 h4 h5 h6 h7
    rcases h3 with h3 | h3 <;> rcases h7 with h7 | h7 <;>
      simp [generateRobustSelector, String.length, String.ext_iff, h1, h2, h3, h4, h5, h6,
        h7, Nat.not_lt.mpr]

/-- Witness for C5 at concrete elements: `id` beats `class`, each later rule
fires when the earlier ones cannot. -/
theorem c5_selector_witness :
    generateRobustSelector { id := "x", className := "y" } 0 "div" = "#x" ∧
    (∀ y : String, generateRobustSelector { id := "x", className := "y" } 0 "div" ≠ "." ++ y) ∧
    generateRobustSelector { name := "q" } 0 "input" = "input[name=\"q\"]" ∧
    generateRobustSelector { className := "ng-a c" } 0 "a" = ".c" ∧
    generateRobustSelector { dataId := "d7" } 0 "button" = "button[data-id=\"d7\"]" ∧
    generateRobustSelector { textContent := " Go " } 0 "button" = "button:contains(\"Go\")" ∧
    generateRobustSelector {} 4 "input" = "xpath://input[5]" := by
  have h1 := (c5_selector_precedence { id := "x", className := "y" } 0 "div").1 (by decide)
  refine ⟨h1.1, h1.2, ?_, ?_, ?_, ?_, ?_⟩
  · exact (c5_selector_precedence { name := "q" } 0 "input").2.1 rfl (by decide)
  · exact (c5_selector_precedence { className := "ng-a c" } 0 "a").2.2.1 rfl rfl (by decide)
      "c" [] (by decide)
  · exact (c5_selector_precedence { dataId := "d7" } 0 "button").2.2.2.1 rfl rfl
      (Or.inl rfl) (by decide)
  · exact (c5_selector_precedence { textContent := " Go " } 0 "button").2.2.2.2.2.2.1 rfl rfl
      (Or.inl rfl) rfl rfl rfl (by decide) (by decide)
  · exact (c5_selector_precedence {} 4 "input").2.2.2.2.2.2.2 rfl rfl (Or.inl rfl) rfl rfl rfl
      (Or.inl (by decide))

/-- C10: a complete command whose `action` is absent or not a supported
action name increments the mistake counter, reports the missing `action`
parameter and force-closes the session before returning; the same invalid
action on a still-streaming command returns with none of these effects. -/
theorem c10_invalid_action (env : BEnv) (s0 : TaskState) (a : Option String)
    (ha : isInvalidAction a = true) :
    runBrowserAction env { action := a } s0 =
      { s0 with
        consecutiveMistakeCount := s0.consecutiveMistakeCount + 1,
        browserOpen := false,
        pushed := s0.pushed ++ [missingParamMessage "browser_action" "action"],
        trace := s0.trace ++ [Ev.toolErrorRecorded, Ev.missingParam "action", Ev.closeBrowser] } ∧
    runBrowserAction env { action := a, streaming := true } s0 = s0 := by
  constructor <;>
    simp [runBrowserAction, browserActionTool, ha, bumpMistakes, recordToolErrorM,
      sayMissingParamError, pushToolResultM, closeBrowserM, emit, Act.modifyTask]

/-- Witness for C10 at the concrete action name `"frobnicate"`. -/
theorem c10_invalid_action_witness :
    runBrowserAction {} pBadAction {} =
      { consecutiveMistakeCount := 1,
        browserOpen := false,
        pushed := [missingParamMessage "browser_action" "action"],
        trace := [Ev.toolErrorRecorded, Ev.missingParam "action", Ev.closeBrowser] } ∧
    runBrowserAction {} pBadActionStreaming {} = {} := by
  have h := c10_invalid_action {} {} (some "frobnicate") (by decide)
  exact ⟨h.1, h.2⟩

/-- C6: a complete `launch` invocation missing its `url` counts one mistake,
reports the missing parameter, leaves the session closed via a force-close,
and performs no navigation collaborator call (`goto` / `navigateToUrl`). -/
theorem c6_launch_missing_url (env : BEnv) (s0 : TaskState) (u : Option String)
    (hu : truthy u = false) :
    runBrowserAction env { action := some "launch", url := u } s0 =
      { s0 with
        consecutiveMistakeCount := s0.consecutiveMistakeCount + 1,
        browserOpen := false,
        pushed := s0.pushed ++ [missingParamMessage "browser_action" "url"],
        trace := s0.trace ++ [Ev.toolErrorRecorded, Ev.missingParam "url", Ev.closeBrowser] } ∧
    (∀ t v, Ev.goto t v ∈ (runBrowserAction env { action := some "launch", url := u } s0).trace →
      Ev.goto t v ∈ s0.trace) ∧
    (∀ v, Ev.navigateToUrl v ∈ (runBrowserAction env { action := some "launch", url := u } s0).trace →
      Ev.navigateToUrl v ∈ s0.trace) := by
  have hrun : runBrowserAction env { action := some "launch", url := u } s0 =
      { s0 with
        consecutiveMistakeCount := s0.consecutiveMistakeCount + 1,
        browserOpen := false,
        pushed := s0.pushed ++ [missingParamMessage "browser_action" "url"],
        trace := s0.trace ++ [Ev.toolErrorRecorded, Ev.missingParam "url", Ev.closeBrowser] } := by
    simp [runBrowserAction, browserActionTool, isInvalidAction, browserActions,
      launchDispatch, hu, bumpMistakes, recordToolErrorM, sayMissingParamError,
      pushToolResultM, closeBrowserM, emit, Act.modifyTask, Act.tryCatch]
  refine ⟨hrun, ?_, ?_⟩
  · intro t v hmem
    rw [hrun] at hmem
    simpa using hmem
  · intro v hmem
    rw [hrun] at hmem
    simpa using hmem

/-- Witness for C6 at a concrete invocation with `url` absent. -/
theorem c6_launch_missing_url_witness :
    runBrowserAction {} pLaunchNoUrl {} =
      { consecutiveMistakeCount := 1,
        browserOpen := false,
        pushed := [missingParamMessage "browser_action" "url"],
        trace := [Ev.toolErrorRecorded, Ev.missingParam "url", Ev.closeBrowser] } :=
  (c6_launch_missing_url {} {} none rfl).1

set_option maxRecDepth 16384 in
/-- C7: a text-mode `click` whose page-driving click call rejects leaves the
session open (no force-close), and the pushed result string contains the
offending selector together with the hint to use a unique CSS selector
instead of coordinates. -/
theorem c7_click_reject_recoverable (env : BEnv) (s0 : TaskState) (sel err : String)
    (himg : env.supportsImages = false) (hclick : env.pageClick = .error err)
    (hsel : sel ≠ "") :
    runBrowserAction env { action := some "click", coordinate := some sel } s0 =
      { s0 with
        consecutiveMistakeCount := s0.consecutiveMistakeCount + 1,
        pushed := s0.pushed ++ [clickFailMessage sel err],
        trace := s0.trace ++ [Ev.pageClick sel, Ev.toolErrorRecorded] } ∧
    (runBrowserAction env { action := some "click", coordinate := some sel } s0).browserOpen
      = s0.browserOpen ∧
    (Ev.closeBrowser ∈ (runBrowserAction env
        { action := some "click", coordinate := some sel } s0).trace →
      Ev.closeBrowser ∈ s0.trace) ∧
    sel.data <:+: (clickFailMessage sel err).data ∧
    "CSS selector".data <:+: (clickFailMessage sel err).data ∧
    "instead of coordinates".data <:+: (clickFailMessage sel err).data ∧
    "Ensure the selector is unique".data <:+: (clickFailMessage sel err).data := by
  have hrun : runBrowserAction env { action := some "click", coordinate := some sel } s0 =
      { s0 with
        consecutiveMistakeCount := s0.consecutiveMistakeCount + 1,
        pushed := s0.pushed ++ [clickFailMessage sel err],
        trace := s0.trace ++ [Ev.pageClick sel, Ev.toolErrorRecorded] } := by
    simp [runBrowserAction, browserActionTool, isInvalidAction, browserActions,
      textModeDispatch, himg, hclick, hsel, truthy, doActionM, postActionAnalysis,
      bumpMistakes, recordToolErrorM, sayMissingParamError, pushToolResultM,
      closeBrowserM, emit, Act.modifyTask, Act.tryCatch, Act.throw, toolResult,
      clickFailMessage]
  refine ⟨hrun, by rw [hrun], ?_, ?_, ?_, ?_, ?_⟩
  · intro hmem
    rw [hrun] at hmem
    simpa using hmem
  all_goals
    have htail : (". For text-based browsing, provide a CSS selector (e.g., \"button.submit\", \"#login-btn\", \"a[href=\x27/about\x27]\") instead of coordinates. Ensure the selector is unique and the element is interactable.").data
        <:+: (clickFailMessage sel err).data := by
      refine ⟨("Failed to click element: Failed to click element with selector \"" ++ sel ++
        "\": " ++ err).data, [], ?_⟩
      simp [clickFailMessage, String.data_append]
  · exact ⟨"Failed to click element: Failed to click element with selector \"".data,
      ("\": " ++ err ++ ". For text-based browsing, provide a CSS selector (e.g., \"button.submit\", \"#login-btn\", \"a[href=\x27/about\x27]\") instead of coordinates. Ensure the selector is unique and the element is interactable.").data,
      by simp [clickFailMessage, String.data_append]⟩
  · exact List.IsInfix.trans (by decide) htail
  · exact List.IsInfix.trans (by decide) htail
  · exact List.IsInfix.trans (by decide) htail

/-- Witness for C7: the concrete scenario `click` with `coordinate =
"#missing"` where the page-driving click rejects. -/
theorem c7_click_reject_witness :
    (runBrowserAction envClickRejects
        { action := some "click", coordinate := some "#missing" }
        { browserOpen := true }).browserOpen = true ∧
    (runBrowserAction envClickRejects
        { action := some "click", coordinate := some "#missing" }
        { browserOpen := true }).pushed =
      [clickFailMessage "#missing" "No node found for selector: #missing"] ∧
    "#missing".data <:+:
      (clickFailMessage "#missing" "No node found for selector: #missing").data := by
  have h := c7_click_reject_recoverable envClickRejects { browserOpen := true } "#missing"
    "No node found for selector: #missing" rfl rfl (by decide)
  refine ⟨?_, ?_, h.2.2.2.1⟩
  · rw [h.1]
  · rw [h.1]
    simp

/-- C1: the retry-exhaustion scenario for a text-strategy launch.  Every
analysis attempt yields empty content and zero elements; exactly 3
attempts occur (no 4th) and the returned content is non-empty — but the
claimed last-resort raw extraction never happens: the loop has already
overwritten the pending content with the non-empty retry notice
"Page content could not be loaded. Retrying (3/3)...", so the
`if (!pageAnalysis.content)` guard of the fallback block is false and
`document.body` is never read.  The accepted content is the retry notice,
not wrapped body text. -/
theorem c1_retry_exhaustion_no_fallback :
    (∀ k, envExhausted.analysisEval k =
      .ok { content := "<div></div>", elements := [], isSecurityBlock := false }) ∧
    (analyzePageForTextBrowsing (envExhausted.analysisEval 0) none).content = "" ∧
    (analyzePageForTextBrowsing (envExhausted.analysisEval 0) none).elements = [] ∧
    ((runBrowserAction envExhausted pLaunchExample {}).trace.filter
        (fun e => match e with | Ev.analysisPass _ => true | _ => false)).length = 3 ∧
    Ev.bodyTextExtract ∉ (runBrowserAction envExhausted pLaunchExample {}).trace ∧
    (runBrowserAction envExhausted pLaunchExample {}).results =
      [{ screenshot := none,
         logs := some "Navigated to https://example.com using text-based browsing (model does not support images)",
         currentUrl := some "https://example.com",
         textContent := some "Page content could not be loaded. Retrying (3/3)...",
         interactiveElements := some [] }] ∧
    "Page content could not be loaded. Retrying (3/3)..." ≠ "" :=
  ⟨fun _ => rfl, by decide, by decide, by decide, by decide, by decide, by decide⟩

/-- Counterexample to C2 at concrete inputs: a text-mode `click` whose
page-driving click rejects is not a validation failure (its trace holds no
missing-parameter report), yet the mistake counter increments; and a
text-mode `click` that executes successfully does not reset the counter to
zero (it stays at 5). -/
theorem c2_counterexample :
    (runBrowserAction envClickRejects
        { action := some "click", coordinate := some "#missing" }
        { browserOpen := true }).consecutiveMistakeCount = 1 ∧
    (runBrowserAction envClickRejects
        { action := some "click", coordinate := some "#missing" }
        { browserOpen := true }).trace =
      [Ev.pageClick "#missing", Ev.toolErrorRecorded] ∧
    (runBrowserAction envClickAccept
        { action := some "click", coordinate := some "#missing" }
        { browserOpen := true, consecutiveMistakeCount := 5 }).consecutiveMistakeCount = 5 ∧
    ¬ (runBrowserAction envClickAccept
        { action := some "click", coordinate := some "#missing" }
        { browserOpen := true, consecutiveMistakeCount := 5 }).consecutiveMistakeCount = 0 :=
  ⟨by decide, by decide, by decide, by decide⟩

/-- C2 (amended): the mistake counter increments on validation failures and
also on text-mode execution failures and unsupported text-mode actions; it
is reset to zero when a command passes validation on the launch and visual
paths, while a text-mode `click` that executes successfully leaves it
unchanged rather than resetting it. -/
theorem c2_amended_mistake_counter
    (envA envB envC envE : BEnv) (s0 : TaskState) (sel err : String) (r : EvalResult)
    (hA : envA.supportsImages = false)
    (hB1 : envB.supportsImages = false) (hB2 : envB.pageClick = .error err)
    (hC1 : envC.supportsImages = false) (hC2 : envC.pageClick = .ok ())
    (hC3 : envC.analysisEval = fun _ => .ok r) (hC4 : r.content = "") (hC5 : r.elements ≠ [])
    (hE : envE.approveLaunch = false)
    (hsel : sel ≠ "") :
    (runBrowserAction envA { action := some "click" } s0).consecutiveMistakeCount
      = s0.consecutiveMistakeCount + 1 ∧
    (runBrowserAction envB { action := some "click", coordinate := some sel } s0).consecutiveMistakeCount
      = s0.consecutiveMistakeCount + 1 ∧
    (runBrowserAction envC { action := some "click", coordinate := some sel } s0).consecutiveMistakeCount
      = s0.consecutiveMistakeCount ∧
    (runBrowserAction envA { action := some "resize", size := some "900x600" } s0).consecutiveMistakeCount
      = s0.consecutiveMistakeCount + 1 ∧
    (runBrowserAction envE { action := some "launch", url := some "https://example.com" } s0).consecutiveMistakeCount
      = 0 := by
  refine ⟨?_, ?_, ?_, ?_, ?_⟩
  · simp [runBrowserAction, browserActionTool, isInvalidAction, browserActions,
      textModeDispatch, hA, truthy, Act.tryCatch, bumpMistakes, recordToolErrorM,
      sayMissingParamError, pushToolResultM, emit, Act.modifyTask]
  · simp [runBrowserAction, browserActionTool, isInvalidAction, browserActions,
      textModeDispatch, hB1, hB2, hsel, truthy, doActionM, Act.tryCatch, Act.throw,
      bumpMistakes, recordToolErrorM, sayMissingParamError, pushToolResultM, emit,
      Act.modifyTask, toolResult]
  · simp [runBrowserAction, browserActionTool, isInvalidAction, browserActions,
      textModeDispatch, hC1, hC2, hC3, hC4, hC5, hsel, truthy, doActionM,
      postActionAnalysis, actionRetryLoop, analyzePageM, actionFallbackExtract,
      analyzePageForTextBrowsing, Act.tryCatch, bumpMistakes, recordToolErrorM,
      sayMissingParamError, pushToolResultM, setActionResult, emit, Act.modifyTask,
      toolResult, jsOrO, elementsLines]
  · simp [runBrowserAction, browserActionTool, isInvalidAction, browserActions,
      textModeDispatch, hA, truthy, Act.tryCatch, bumpMistakes, recordToolErrorM,
      sayMissingParamError, pushToolResultM, emit, Act.modifyTask, toolResult]
  · simp [runBrowserAction, browserActionTool, isInvalidAction, browserActions,
      launchDispatch, hE, truthy, Act.tryCatch, clearMistakes, emit, Act.modifyTask]

/-- Witness for C2 (amended) at concrete inputs. -/
theorem c2_amended_witness :
    (runBrowserAction {} { action := some "click" } {}).consecutiveMistakeCount = 0 + 1 ∧
    (runBrowserAction envClickRejects
        { action := some "click", coordinate := some "#missing" } {}).consecutiveMistakeCount
      = 0 + 1 ∧
    (runBrowserAction envClickAccept
        { action := some "click", coordinate := some "#missing" } {}).consecutiveMistakeCount
      = 0 ∧
    (runBrowserAction {} { action := some "resize", size := some "900x600" } {}).consecutiveMistakeCount
      = 0 + 1 ∧
    (runBrowserAction { approveLaunch := false }
        { action := some "launch", url := some "https://example.com" } {}).consecutiveMistakeCount
      = 0 :=
  c2_amended_mistake_counter {} envClickRejects envClickAccept { approveLaunch := false }
    {} "#missing" "No node found for selector: #missing" evalElemsOnly
    rfl rfl rfl rfl rfl rfl rfl (by decide) rfl (by decide)

theorem keepsResults_pure {α : Type} (a : α) : keepsResults (pure a : Act α) :=
  fun _ => rfl

theorem keepsResults_throw {α : Type} (e : String) : keepsResults (Act.throw e : Act α) :=
  fun _ => rfl

theorem keepsResults_modifyTask (f : TaskState → TaskState)
    (hf : ∀ s, (f s).results = s.results) : keepsResults (Act.modifyTask f) :=
  fun s => hf s

theorem keepsResults_emit (e : Ev) : keepsResults (emit e) := fun _ => rfl

theorem keepsResults_push (m : String) : keepsResults (pushToolResultM m) := fun _ => rfl

theorem keepsResults_bump : keepsResults bumpMistakes := fun _ => rfl

theorem keepsResults_clear : keepsResults clearMistakes := fun _ => rfl

theorem keepsResults_close : keepsResults closeBrowserM := fun _ => rfl

theorem keepsResults_recordToolError : keepsResults recordToolErrorM := fun _ => rfl

theorem keepsResults_analyzePage (env : BEnv) : keepsResults (analyzePageM env) :=
  fun _ => rfl

theorem keepsResults_bind {α β : Type} {x : Act α} {f : α → Act β}
    (hx : keepsResults x) (hf : ∀ a, keepsResults (f a)) : keepsResults (x >>= f) := by
  intro s
  have hxs := hx s
  rcases hx2 : x s with ⟨out, s1⟩
  rw [hx2] at hxs
  cases out with
  | ok a =>
    have := hf a s1
    simp only [act_bind_apply, hx2]
    exact this.trans hxs
  | error e =>
    simp only [act_bind_apply, hx2]
    exact hxs

theorem keepsResults_tryCatch {α : Type} {x : Act α} {h : String → Act α}
    (hx : keepsResults x) (hh : ∀ e, keepsResults (h e)) : keepsResults (Act.tryCatch x h) := by
  intro s
  have hxs := hx s
  rcases hx2 : x s with ⟨out, s1⟩
  rw [hx2] at hxs
  cases out with
  | ok a =>
    simp only [act_tryCatch_apply, hx2]
    exact hxs
  | error e =>
    simp only [act_tryCatch_apply, hx2]
    exact (hh e s1).trans hxs

theorem keepsResults_sayMissing (tool param : String) :
    keepsResults (sayMissingParamError tool param) :=
  keepsResults_bind (keepsResults_emit _) (fun _ => keepsResults_pure _)

theorem keepsResults_launchBrowser (env : BEnv) : keepsResults (launchBrowserM env) := by
  unfold launchBrowserM
  rcases env.launchResult with e | u
  · exact keepsResults_throw e
  · exact keepsResults_modifyTask _ (fun _ => rfl)

theorem keepsResults_ite {α : Type} (c : Prop) [Decidable c] {x y : Act α}
    (hx : keepsResults x) (hy : keepsResults y) : keepsResults (if c then x else y) := by
  by_cases hc : c
  · simpa [hc] using hx
  · simpa [hc] using hy

theorem keepsResults_launchRetryLoop (env : BEnv) (l : List Nat) (pa : PageAnalysis) :
    keepsResults (launchRetryLoop env l pa) := by
  induction l generalizing pa with
  | nil => exact keepsResults_pure _
  | cons a rest ih =>
    refine keepsResults_bind (keepsResults_analyzePage env) (fun r => ?_)
    refine keepsResults_ite _ ?_ ?_
    · refine keepsResults_bind (keepsResults_emit _) (fun _ => ?_)
      by_cases hc : a < 3
      · simp only [hc, if_true]
        exact keepsResults_bind (keepsResults_emit _) (fun _ => ih _)
      · simp only [hc, if_false]
        exact keepsResults_bind (keepsResults_pure _) (fun _ => ih _)
    · refine keepsResults_ite _ (keepsResults_pure _) ?_
      exact keepsResults_bind (keepsResults_emit _) (fun _ => ih _)

theorem keepsResults_actionRetryLoop (env : BEnv) (word : String) (l : List Nat)
    (pa : PageAnalysis) : keepsResults (actionRetryLoop env word l pa) := by
  induction l generalizing pa with
  | nil => exact keepsResults_pure _
  | cons a rest ih =>
    refine keepsResults_bind (keepsResults_analyzePage env) (fun r => ?_)
    refine keepsResults_ite _ (keepsResults_pure _) ?_
    exact keepsResults_bind (keepsResults_emit _) (fun _ => ih _)

theorem keepsResults_launchFallbackExtract (env : BEnv) (pa : PageAnalysis) :
    keepsResults (launchFallbackExtract env pa) := by
  unfold launchFallbackExtract
  refine keepsResults_ite _ ?_ (keepsResults_pure _)
  refine keepsResults_bind (keepsResults_emit _) (fun _ => ?_)
  rcases env.bodyEval with e | t
  · exact keepsResults_throw e
  · exact keepsResults_ite _ (keepsResults_pure _) (keepsResults_pure _)

theorem keepsResults_actionFallbackExtract (env : BEnv) (word : String) (pa : PageAnalysis) :
    keepsResults (actionFallbackExtract env word pa) := by
  unfold actionFallbackExtract
  refine keepsResults_ite _ ?_ (keepsResults_pure _)
  refine keepsResults_bind (keepsResults_emit _) (fun _ => ?_)
  rcases env.bodyEval with e | t
  · exact keepsResults_throw e
  · exact keepsResults_ite _ (keepsResults_pure _) (keepsResults_pure _)

theorem keepsResults_postActionAnalysis (env : BEnv) (word : String) :
    keepsResults (postActionAnalysis env word) :=
  keepsResults_bind (keepsResults_actionRetryLoop env word _ _)
    (fun pa => keepsResults_actionFallbackExtract env word pa)

theorem keepsResults_launchTextCallback (env : BEnv) (url : String) :
    keepsResults (launchTextCallback env url) := by
  unfold launchTextCallback
  refine keepsResults_bind (keepsResults_emit _) (fun _ => ?_)
  refine keepsResults_bind ?_ (fun _ => keepsResults_bind
    (keepsResults_launchRetryLoop env _ _) (fun pa => keepsResults_launchFallbackExtract env pa))
  rcases env.goto1 with e | u
  · refine keepsResults_bind (keepsResults_emit _) (fun _ => ?_)
    rcases env.goto2 with e2 | u2
    · exact keepsResults_throw _
    · exact keepsResults_pure _
  · exact keepsResults_pure _

theorem addsOnly_of_keeps {α : Type} {P : BrowserActionResult → Prop} {x : Act α}
    (h : keepsResults x) : addsOnly P x := by
  intro s rr hm
  rw [h s] at hm
  exact Or.inl hm

theorem addsOnly_bind {α β : Type} {P : BrowserActionResult → Prop} {x : Act α}
    {f : α → Act β} (hx : addsOnly P x) (hf : ∀ a, addsOnly P (f a)) :
    addsOnly P (x >>= f) := by
  intro s rr hm
  rcases hx2 : x s with ⟨out, s1⟩
  have hx1 : ∀ rr2 : BrowserActionResult, rr2 ∈ s1.results → rr2 ∈ s.results ∨ P rr2 := by
    intro rr2 h2
    exact hx s rr2 (by rw [hx2]; exact h2)
  simp only [act_bind_apply, hx2] at hm
  cases out with
  | ok a =>
    rcases hf a s1 rr hm with h | h
    · exact hx1 rr h
    · exact Or.inr h
  | error e => exact hx1 rr hm

theorem addsOnly_tryCatch {α : Type} {P : BrowserActionResult → Prop} {x : Act α}
    {h : String → Act α} (hx : addsOnly P x) (hh : ∀ e, addsOnly P (h e)) :
    addsOnly P (Act.tryCatch x h) := by
  intro s rr hm
  rcases hx2 : x s with ⟨out, s1⟩
  have hx1 : ∀ rr2 : BrowserActionResult, rr2 ∈ s1.results → rr2 ∈ s.results ∨ P rr2 := by
    intro rr2 h2
    exact hx s rr2 (by rw [hx2]; exact h2)
  simp only [act_tryCatch_apply, hx2] at hm
  cases out with
  | ok a => exact hx1 rr hm
  | error e =>
    rcases hh e s1 rr hm with h2 | h2
    · exact hx1 rr h2
    · exact Or.inr h2

theorem addsOnly_setActionResult {P : BrowserActionResult → Prop}
    {r : BrowserActionResult} (hP : P r) : addsOnly P (setActionResult r) := by
  intro s rr hm
  simp only [setActionResult, act_modifyTask_apply] at hm
  rcases List.mem_append.mp hm with h | h
  · exact Or.inl h
  · simp only [List.mem_singleton] at h
    exact Or.inr (h ▸ hP)

theorem addsOnly_ite {α : Type} {P : BrowserActionResult → Prop} (c : Prop) [Decidable c]
    {x y : Act α} (hx : addsOnly P x) (hy : addsOnly P y) :
    addsOnly P (if c then x else y) := by
  by_cases hc : c
  · simpa [hc] using hx
  · simpa [hc] using hy

theorem addsOnly_launchDispatch (env : BEnv) (p : ToolUseParams)
    (himg : env.supportsImages = false) :
    addsOnly (fun rr => rr.screenshot = none ∧ rr.textContent ≠ none ∧
      rr.interactiveElements ≠ none) (launchDispatch env p) := by
  unfold launchDispatch
  refine addsOnly_ite _ ?_ ?_
  · refine addsOnly_bind (addsOnly_of_keeps keepsResults_bump) (fun _ => ?_)
    refine addsOnly_bind (addsOnly_of_keeps keepsResults_recordToolError) (fun _ => ?_)
    refine addsOnly_bind (addsOnly_of_keeps (keepsResults_sayMissing _ _)) (fun _ => ?_)
    refine addsOnly_bind (addsOnly_of_keeps (keepsResults_push _)) (fun _ => ?_)
    exact addsOnly_bind (addsOnly_of_keeps keepsResults_close)
      (fun _ => addsOnly_of_keeps (keepsResults_pure _))
  · refine addsOnly_bind (addsOnly_of_keeps keepsResults_clear) (fun _ => ?_)
    refine addsOnly_bind (addsOnly_of_keeps (keepsResults_emit _)) (fun _ => ?_)
    refine addsOnly_ite _ (addsOnly_of_keeps (keepsResults_pure _)) ?_
    rw [himg]
    simp only [Bool.false_eq_true, if_false]
    refine addsOnly_tryCatch ?_ (fun e => ?_)
    · refine addsOnly_bind (addsOnly_of_keeps (keepsResults_launchBrowser env)) (fun _ => ?_)
      refine addsOnly_bind ?_ (fun pr => ?_)
      · exact addsOnly_of_keeps (keepsResults_bind (keepsResults_launchTextCallback env _)
          (fun _ => keepsResults_pure _))
      · refine addsOnly_bind (addsOnly_setActionResult ?_) (fun _ =>
          addsOnly_of_keeps (keepsResults_pure _))
        exact ⟨rfl, by simp, by simp⟩
    · refine addsOnly_tryCatch ?_ (fun e2 => ?_)
      · refine addsOnly_bind (addsOnly_of_keeps (keepsResults_emit _)) (fun _ => ?_)
        refine addsOnly_bind ?_ (fun t => ?_)
        · rcases env.fetchEval with e3 | t3
          · exact addsOnly_of_keeps (keepsResults_throw _)
          · exact addsOnly_of_keeps (keepsResults_pure _)
        · refine addsOnly_ite _ ?_ ?_
          · refine addsOnly_bind (addsOnly_setActionResult ⟨rfl, by simp, by simp⟩)
              (fun _ => addsOnly_of_keeps (keepsResults_pure _))
          · exact addsOnly_bind (addsOnly_of_keeps keepsResults_close)
              (fun _ => addsOnly_of_keeps (keepsResults_throw _))
      · exact addsOnly_bind (addsOnly_of_keeps keepsResults_close)
          (fun _ => addsOnly_of_keeps (keepsResults_throw _))

theorem addsOnly_ite_h {α : Type} {P : BrowserActionResult → Prop} (c : Prop) [Decidable c]
    {x y : Act α} (hx : c → addsOnly P x) (hy : ¬ c → addsOnly P y) :
    addsOnly P (if c then x else y) := by
  by_cases hc : c
  · simpa [hc] using hx hc
  · simpa [hc] using hy hc

theorem keepsResults_validation (tool param : String) :
    keepsResults (do
      bumpMistakes
      recordToolErrorM
      let msg ← sayMissingParamError tool param
      pushToolResultM msg) := by
  refine keepsResults_bind keepsResults_bump (fun _ => ?_)
  refine keepsResults_bind keepsResults_recordToolError (fun _ => ?_)
  exact keepsResults_bind (keepsResults_sayMissing _ _) (fun msg => keepsResults_push msg)

theorem keepsResults_failCatch (m : String) :
    keepsResults (do
      bumpMistakes
      recordToolErrorM
      pushToolResultM m) := by
  refine keepsResults_bind keepsResults_bump (fun _ => ?_)
  exact keepsResults_bind keepsResults_recordToolError (fun _ => keepsResults_push m)

theorem addsOnly_textModeDispatch (env : BEnv) (p : ToolUseParams) (a : String) :
    addsOnly (textResultOk a) (textModeDispatch env p a) := by
  unfold textModeDispatch
  refine addsOnly_ite_h _ (fun hclick => ?_) (fun _ => ?_)
  · -- click branch
    refine addsOnly_ite _ (addsOnly_of_keeps (keepsResults_validation _ _)) ?_
    refine addsOnly_tryCatch ?_ (fun e => addsOnly_of_keeps (keepsResults_failCatch _))
    refine addsOnly_bind ?_ (fun pr => ?_)
    · refine addsOnly_of_keeps (keepsResults_bind ?_ (fun _ => keepsResults_pure _))
      refine keepsResults_bind (keepsResults_emit _) (fun _ => ?_)
      refine keepsResults_bind ?_ (fun _ => keepsResults_postActionAnalysis env _)
      rcases env.pageClick with e | u
      · exact keepsResults_throw _
      · exact keepsResults_pure _
    · refine addsOnly_bind (addsOnly_setActionResult ⟨rfl, Or.inr ⟨by simp, by simp⟩⟩)
        (fun _ => addsOnly_of_keeps (keepsResults_push _))
  refine addsOnly_ite_h _ (fun htype => ?_) (fun _ => ?_)
  · -- type branch
    refine addsOnly_ite _ (addsOnly_of_keeps (keepsResults_validation _ _)) ?_
    refine addsOnly_tryCatch ?_ (fun e => addsOnly_of_keeps (keepsResults_failCatch _))
    refine addsOnly_bind ?_ (fun pr => ?_)
    · refine addsOnly_of_keeps (keepsResults_bind ?_ (fun _ => keepsResults_pure _))
      refine keepsResults_bind (keepsResults_emit _) (fun _ => ?_)
      rcases env.pageType with e | u
      · exact keepsResults_throw _
      · exact keepsResults_pure _
    · refine addsOnly_bind (addsOnly_setActionResult ⟨rfl, Or.inl htype⟩)
        (fun _ => addsOnly_of_keeps (keepsResults_push _))
  refine addsOnly_ite_h _ (fun hscroll => ?_) (fun _ => ?_)
  · -- scroll branch
    refine addsOnly_tryCatch ?_ (fun e => addsOnly_of_keeps (keepsResults_failCatch _))
    refine addsOnly_bind ?_ (fun pr => ?_)
    · refine addsOnly_of_keeps (keepsResults_bind ?_ (fun _ => keepsResults_pure _))
      refine keepsResults_bind (keepsResults_emit _) (fun _ => ?_)
      refine keepsResults_bind ?_ (fun _ => keepsResults_bind (keepsResults_emit _)
        (fun _ => keepsResults_postActionAnalysis env _))
      rcases env.scrollEval with e | u
      · exact keepsResults_throw _
      · exact keepsResults_pure _
    · refine addsOnly_bind (addsOnly_setActionResult ⟨rfl, Or.inr ⟨by simp, by simp⟩⟩)
        (fun _ => addsOnly_of_keeps (keepsResults_push _))
  refine addsOnly_ite_h _ (fun hhover => ?_) (fun _ => ?_)
  · -- hover branch
    refine addsOnly_ite _ (addsOnly_of_keeps (keepsResults_validation _ _)) ?_
    refine addsOnly_tryCatch ?_ (fun e => addsOnly_of_keeps (keepsResults_failCatch _))
    refine addsOnly_bind ?_ (fun pr => ?_)
    · refine addsOnly_of_keeps (keepsResults_bind ?_ (fun _ => keepsResults_pure _))
      refine keepsResults_bind (keepsResults_emit _) (fun _ => ?_)
      refine keepsResults_bind ?_ (fun _ => keepsResults_bind (keepsResults_emit _)
        (fun _ => keepsResults_postActionAnalysis env _))
      rcases env.hoverEval with e | u
      · exact keepsResults_throw _
      · exact keepsResults_pure _
    · refine addsOnly_bind (addsOnly_setActionResult ⟨rfl, Or.inr ⟨by simp, by simp⟩⟩)
        (fun _ => addsOnly_of_keeps (keepsResults_push _))
  refine addsOnly_ite_h _ (fun hnav => ?_) (fun _ => ?_)
  · -- back / forward branch
    refine addsOnly_tryCatch ?_ (fun e => addsOnly_of_keeps (keepsResults_failCatch _))
    refine addsOnly_bind ?_ (fun navigationResult => ?_)
    · refine addsOnly_of_keeps (keepsResults_ite _ ?_ ?_)
      · refine keepsResults_bind (keepsResults_emit _) (fun _ => ?_)
        rcases env.sessionBack with e | u
        · exact keepsResults_throw _
        · exact keepsResults_pure _
      · refine keepsResults_bind (keepsResults_emit _) (fun _ => ?_)
        rcases env.sessionForward with e | u
        · exact keepsResults_throw _
        · exact keepsResults_pure _
    · refine addsOnly_bind ?_ (fun pr => ?_)
      · refine addsOnly_of_keeps (keepsResults_bind ?_ (fun _ => keepsResults_pure _))
        exact keepsResults_bind (keepsResults_emit _)
          (fun _ => keepsResults_postActionAnalysis env _)
      · refine addsOnly_bind (addsOnly_setActionResult ⟨rfl, Or.inr ⟨by simp, by simp⟩⟩)
          (fun _ => addsOnly_of_keeps (keepsResults_push _))
  · -- unsupported text-mode action
    exact addsOnly_of_keeps (keepsResults_failCatch _)

theorem addsOnly_mono {α : Type} {P Q : BrowserActionResult → Prop} {x : Act α}
    (hPQ : ∀ rr, P rr → Q rr) (hx : addsOnly P x) : addsOnly Q x := by
  intro s rr hm
  rcases hx s rr hm with h | h
  · exact Or.inl h
  · exact Or.inr (hPQ rr h)

theorem keepsResults_finalDispatchReport (a : String) (r : BrowserActionResult) :
    keepsResults (finalDispatchReport a r) := by
  unfold finalDispatchReport
  refine keepsResults_ite _ (keepsResults_push _) ?_
  refine keepsResults_ite _ ?_ ?_
  · exact keepsResults_push _
  · exact keepsResults_bind (keepsResults_emit _) (fun _ => keepsResults_push _)

/-- C3 (amended): in text mode (model without image support), every
`browserActionResult` the dispatcher itself constructs for a non-`close`
action carries `screenshot = undefined`; `screenshot` and `textContent` are
never both populated; and every such result except the `type` one carries
`textContent` together with `interactiveElements` (the `type` success
result carries only logs and URL). -/
theorem c3_amended_result_shape (env : BEnv) (p : ToolUseParams) (s0 : TaskState)
    (himg : env.supportsImages = false) (hclose : p.action ≠ some "close")
    (hres : s0.results = []) :
    ∀ rr ∈ (runBrowserAction env p s0).results,
      rr.screenshot = none ∧
      ¬ (rr.screenshot ≠ none ∧ rr.textContent ≠ none) ∧
      (p.action = some "type" ∨ (rr.textContent ≠ none ∧ rr.interactiveElements ≠ none)) := by
  have hall : addsOnly (fun rr => rr.screenshot = none ∧
      (p.action = some "type" ∨ (rr.textContent ≠ none ∧ rr.interactiveElements ≠ none)))
      (browserActionTool env p) := by
    unfold browserActionTool
    refine addsOnly_ite_h _ (fun _ => ?_) (fun hval => ?_)
    · refine addsOnly_of_keeps (keepsResults_ite _ ?_ (keepsResults_pure _))
      refine keepsResults_bind keepsResults_bump (fun _ => ?_)
      refine keepsResults_bind keepsResults_recordToolError (fun _ => ?_)
      refine keepsResults_bind (keepsResults_sayMissing _ _) (fun msg => ?_)
      exact keepsResults_bind (keepsResults_push msg) (fun _ => keepsResults_close)
    · have haction : p.action = some (p.action.getD "") := by
        rcases hp : p.action with _ | x
        · rw [hp] at hval
          simp [isInvalidAction] at hval
        · rfl
      refine addsOnly_tryCatch ?_ (fun e => addsOnly_of_keeps
        (keepsResults_bind keepsResults_close (fun _ => keepsResults_emit _)))
      refine addsOnly_ite _ (addsOnly_of_keeps (keepsResults_ite _ (keepsResults_emit _)
        (keepsResults_emit _))) ?_
      refine addsOnly_bind ?_ (fun r? => ?_)
      · refine addsOnly_ite_h _ (fun hlaunch => ?_) (fun _ => ?_)
        · refine addsOnly_mono (fun rr h => ⟨h.1, Or.inr ⟨h.2.1, h.2.2⟩⟩)
            (addsOnly_launchDispatch env p himg)
        refine addsOnly_ite_h _ (fun htext => ?_) (fun hvis => ?_)
        · refine addsOnly_bind ?_ (fun _ => addsOnly_of_keeps (keepsResults_pure _))
          refine addsOnly_mono (fun rr h => ?_) (addsOnly_textModeDispatch env p _)
          refine ⟨h.1, ?_⟩
          rcases h.2 with h2 | h2
          · exact Or.inl (by rw [haction, h2])
          · exact Or.inr h2
        · exfalso
          apply hvis
          refine ⟨himg, fun hc => ?_⟩
          exact hclose (by rw [haction, hc])
      · rcases r? with _ | r
        · exact addsOnly_of_keeps (keepsResults_pure _)
        · exact addsOnly_of_keeps (keepsResults_finalDispatchReport _ r)
  intro rr hm
  rcases hall s0 rr hm with h | h
  · rw [hres] at h
    simp at h
  · exact ⟨h.1, fun hc => hc.1 h.1, h.2⟩

/-- Counterexample to C3 at a concrete input: the successful text-mode
`type` result populates neither `screenshot` nor `textContent` (with
`interactiveElements` also absent), so not every ActionResult carries one
of the two payload branches. -/
theorem c3_counterexample :
    (runBrowserAction {} pTypeOk {}).results =
      [{ screenshot := none,
         logs := some "Typed \"hello\" into element with selector \"#in\".",
         currentUrl := none, currentMousePosition := none, textContent := none,
         interactiveElements := none }] ∧
    ¬ (∀ rr ∈ (runBrowserAction {} pTypeOk {}).results,
        rr.screenshot ≠ none ∨ (rr.textContent ≠ none ∧ rr.interactiveElements ≠ none)) :=
  ⟨by decide, by decide⟩

/-- Witness for C3 (amended): the concrete text-mode click run records only
screenshot-free results. -/
theorem c3_amended_witness :
    ((runBrowserAction envClickAccept
        { action := some "click", coordinate := some "#missing" } {}).results.all
      (fun rr => rr.screenshot == none)) = true := by
  have h := c3_amended_result_shape envClickAccept
    { action := some "click", coordinate := some "#missing" } {} rfl (by decide) rfl
  rw [List.all_eq_true]
  intro rr hmem
  simp only [beq_iff_eq]
  exact (h rr hmem).1

theorem dropWhile_eq_drop_takeWhile (p : Char → Bool) (l : List Char) :
    l.dropWhile p = l.drop (l.takeWhile p).length := by
  induction l with
  | nil => rfl
  | cons c cs ih =>
    by_cases h : p c <;> simp [List.dropWhile_cons, List.takeWhile_cons, h, ih]

theorem head?_dropWhile_nws (p : Char → Bool) (l : List Char) :
    ∀ c, (l.dropWhile p).head? = some c → p c = false := by
  induction l with
  | nil => intro c hc; simp at hc
  | cons d ds ih =>
    intro c hc
    by_cases h : p d
    · rw [List.dropWhile_cons_of_pos h] at hc
      exact ih c hc
    · rw [List.dropWhile_cons_of_neg h] at hc
      simp only [List.head?_cons, Option.some_inj] at hc
      rw [← hc]
      exact Bool.not_eq_true _ ▸ (by simpa using h)

theorem mmatch_ws_nil : mmatch wsPat [] = none := by
  simp [mmatch, wsPat]

theorem mmatch_ws_head_neg (c : Char) (cs : List Char) (h : isJsWs c = false) :
    mmatch wsPat (c :: cs) = none := by
  simp [mmatch, wsPat, List.takeWhile_cons, h]

theorem mmatch_ws_head_pos (c : Char) (cs : List Char) (h : isJsWs c = true) :
    mmatch wsPat (c :: cs) = some ([], (c :: cs).dropWhile isJsWs) := by
  have hm : ((c :: cs).takeWhile isJsWs).length = (cs.takeWhile isJsWs).length + 1 := by
    simp [List.takeWhile_cons, h]
  simp only [mmatch, wsPat, hm, List.range_succ_eq_map, List.map_cons, List.findSome?_cons]
  rw [Nat.sub_zero, ← hm, ← dropWhile_eq_drop_takeWhile]

theorem collapse_spec (fuel : Nat) :
    ∀ s : List Char, s.length < fuel →
    (∀ c ∈ replGo wsPat (fun _ => [' ']) fuel s, isJsWs c = true → c = ' ') ∧
    List.Chain' (fun x y => ¬ (isJsWs x = true ∧ isJsWs y = true))
      (replGo wsPat (fun _ => [' ']) fuel s) ∧
    (∀ c, (replGo wsPat (fun _ => [' ']) fuel s).head? = some c → isJsWs c = true →
      ∃ d, s.head? = some d ∧ isJsWs d = true) := by
  induction fuel with
  | zero => intro s h; exact absurd h (Nat.not_lt_zero _)
  | succ f ih =>
    intro s hlen
    match s with
    | [] =>
      refine ⟨?_, ?_, ?_⟩ <;> simp [replGo]
    | c :: cs =>
      have hlencs : cs.length < f := by
        simp only [List.length_cons] at hlen
        omega
      by_cases hws : isJsWs c = true
      · have hm := mmatch_ws_head_pos c cs hws
        have hrest : (c :: cs).dropWhile isJsWs = cs.dropWhile isJsWs := by
          simp [List.dropWhile_cons, hws]
        have hlen2 : (cs.dropWhile isJsWs).length < f :=
          lt_of_le_of_lt (List.IsSuffix.length_le (List.dropWhile_suffix isJsWs)) hlencs
        obtain ⟨ih1, ih2, ih3⟩ := ih (cs.dropWhile isJsWs) hlen2
        have hout : replGo wsPat (fun _ => [' ']) (f + 1) (c :: cs) =
            ' ' :: replGo wsPat (fun _ => [' ']) f (cs.dropWhile isJsWs) := by
          rw [show replGo wsPat (fun _ => [' ']) (f + 1) (c :: cs) =
            (match mmatch wsPat (c :: cs) with
              | some (caps, rest) =>
                (fun _ => [' ']) caps ++ replGo wsPat (fun _ => [' ']) f rest
              | none => c :: replGo wsPat (fun _ => [' ']) f cs) from rfl]
          rw [hm, hrest]
          rfl
        rw [hout]
        refine ⟨?_, ?_, ?_⟩
        · intro x hx hxws
          rcases List.mem_cons.mp hx with hx | hx
          · exact hx
          · exact ih1 x hx hxws
        · rw [List.chain'_cons']
          refine ⟨?_, ih2⟩
          intro y hy
          rintro ⟨-, hy2⟩
          obtain ⟨d, hd1, hd2⟩ := ih3 y (by simpa using hy) hy2
          have hnd := head?_dropWhile_nws isJsWs cs d hd1
          rw [hnd] at hd2
          cases hd2
        · intro x _ _
          exact ⟨c, rfl, hws⟩
      · have hws' : isJsWs c = false := by simpa using hws
        have hm := mmatch_ws_head_neg c cs hws'
        have hout : replGo wsPat (fun _ => [' ']) (f + 1) (c :: cs) =
            c :: replGo wsPat (fun _ => [' ']) f cs := by
          rw [show replGo wsPat (fun _ => [' ']) (f + 1) (c :: cs) =
            (match mmatch wsPat (c :: cs) with
              | some (caps, rest) =>
                (fun _ => [' ']) caps ++ replGo wsPat (fun _ => [' ']) f rest
              | none => c :: replGo wsPat (fun _ => [' ']) f cs) from rfl]
          rw [hm]
        obtain ⟨ih1, ih2, ih3⟩ := ih cs hlencs
        rw [hout]
        refine ⟨?_, ?_, ?_⟩
        · intro x hx hxws
          rcases List.mem_cons.mp hx with hx | hx
          · rw [hx] at hxws
            rw [hws'] at hxws
            cases hxws
          · exact ih1 x hx hxws
        · rw [List.chain'_cons']
          refine ⟨?_, ih2⟩
          intro y _
          rintro ⟨h1, -⟩
          rw [hws'] at h1
          cases h1
        · intro x hx hxws
          simp only [List.head?_cons, Option.some_inj] at hx
          rw [← hx] at hxws
          rw [hws'] at hxws
          cases hxws

theorem mem_jsTrim {l : List Char} {c : Char} (h : c ∈ jsTrim l) : c ∈ l := by
  unfold jsTrim at h
  rw [List.mem_reverse] at h
  have h2 := List.IsSuffix.mem h (List.dropWhile_suffix isJsWs)
  rw [List.mem_reverse] at h2
  exact List.IsSuffix.mem h2 (List.dropWhile_suffix isJsWs)

theorem chain'_jsTrim {l : List Char}
    (h : List.Chain' (fun x y => ¬ (isJsWs x = true ∧ isJsWs y = true)) l) :
    List.Chain' (fun x y => ¬ (isJsWs x = true ∧ isJsWs y = true)) (jsTrim l) := by
  unfold jsTrim
  have h1 := h.suffix (List.dropWhile_suffix isJsWs)
  have h2 : List.Chain' (flip fun x y => ¬ (isJsWs x = true ∧ isJsWs y = true))
      ((l.dropWhile isJsWs).reverse.dropWhile isJsWs) := by
    refine List.Chain'.suffix ?_ (List.dropWhile_suffix isJsWs)
    rw [List.chain'_reverse]
    exact h1
  rw [List.chain'_reverse]
  exact h2

theorem prefix_head?_eq {l₁ l₂ : List Char} (h : l₁ <+: l₂) :
    ∀ c, l₁.head? = some c → l₂.head? = some c := by
  rcases h with ⟨t, rfl⟩
  intro c hc
  cases l₁ with
  | nil => simp at hc
  | cons a l => simpa using hc

theorem jsTrim_head_not_ws (l : List Char) :
    ∀ c, (jsTrim l).head? = some c → isJsWs c = false := by
  intro c hc
  unfold jsTrim at hc
  have hpre : ((l.dropWhile isJsWs).reverse.dropWhile isJsWs).reverse <+: l.dropWhile isJsWs := by
    have hs : (l.dropWhile isJsWs).reverse.dropWhile isJsWs <:+ (l.dropWhile isJsWs).reverse :=
      List.dropWhile_suffix isJsWs
    have := List.reverse_prefix.mpr hs
    simpa using this
  exact head?_dropWhile_nws isJsWs l c (prefix_head?_eq hpre c hc)

theorem jsTrim_getLast_not_ws (l : List Char) :
    ∀ c, (jsTrim l).getLast? = some c → isJsWs c = false := by
  intro c hc
  unfold jsTrim at hc
  rw [List.getLast?_reverse] at hc
  exact head?_dropWhile_nws isJsWs (l.dropWhile isJsWs).reverse c hc

set_option maxHeartbeats 1600000 in
/-- C9: for every input, `convertHtmlToMarkdown` returns a single line: its
final whitespace collapse and trim leave no newline, every whitespace
character is a single space, no two whitespace characters are adjacent,
and the text neither starts nor ends with whitespace. -/
theorem c9_single_line_output (html : String) :
    (∀ c ∈ (convertHtmlToMarkdown html).data, isJsWs c = true → c = ' ') ∧
    '\n' ∉ (convertHtmlToMarkdown html).data ∧
    List.Chain' (fun x y => ¬ (isJsWs x = true ∧ isJsWs y = true))
      (convertHtmlToMarkdown html).data ∧
    (∀ c, (convertHtmlToMarkdown html).data.head? = some c → isJsWs c = false) ∧
    (∀ c, (convertHtmlToMarkdown html).data.getLast? = some c → isJsWs c = false) := by
  have hX : (convertHtmlToMarkdown html).data =
      jsTrim (jsReplace wsPat (fun _ => [' ']) (preCollapse html)) := by
    simp only [convertHtmlToMarkdown, preCollapse]
  rw [show jsReplace wsPat (fun _ => [' ']) (preCollapse html) =
      replGo wsPat (fun _ => [' ']) ((preCollapse html).length + 1) (preCollapse html)
    from rfl] at hX
  obtain ⟨h1, h2, -⟩ :=
    collapse_spec ((preCollapse html).length + 1) (preCollapse html) (Nat.lt_succ_self _)
  refine ⟨?_, ?_, ?_, ?_, ?_⟩
  · rw [hX]
    intro c hc hw
    exact h1 c (mem_jsTrim hc) hw
  · rw [hX]
    intro hc
    have := h1 '\n' (mem_jsTrim hc) (by decide)
    cases this
  · rw [hX]
    exact chain'_jsTrim h2
  · rw [hX]
    exact jsTrim_head_not_ws _
  · rw [hX]
    exact jsTrim_getLast_not_ws _

/-- Witness for C9 at a concrete multi-line input. -/
theorem c9_single_line_witness :
    '\n' ∉ (convertHtmlToMarkdown "<p> a\n b </p>\n<p>c</p>").data := by
  have h := c9_single_line_output "<p> a\n b </p>\n<p>c</p>"
  exact h.2.1
